import Mathlib

/-!
Verification development for the scorecard-upload application (app.py):
a multi-gate spreadsheet validation pipeline plus a per-period duplicate
index persisted in a key-value blob store.

The Python source is shallowly embedded:
* spreadsheet cells become the tagged variant `Cell` (absent / number /
  text / datetime), numbers become exact rationals;
* `datetime` objects become the `DT` structure (second granularity, the
  source never exercises microseconds) compared lexicographically;
* pandas DataFrames become lists of rows;
* the S3 blob store becomes an association list from keys to blobs, where
  a blob is the field-level content of a CSV file (a list of rows of
  strings; pandas' CSV quoting makes the character-level encoding lossless
  at this level, and `to_csv` writes both None and the empty string as an
  empty field, which the embedding keeps);
* Python exceptions caught by the source become explicit error results.
-/

set_option maxRecDepth 4000

/-- A spreadsheet cell as pandas hands it to the source: absent (NaN),
a number (int/float, modelled as an exact rational), a text value, or a
datetime (produced by the update-date conversion step). -/
inductive Cell where
  | empty : Cell
  | num (q : ℚ) : Cell
  | str (s : String) : Cell
  | date (y m d : Nat) : Cell
deriving DecidableEq, Repr, BEq

/-- Python truthiness of a cell value: NaN is truthy, numbers are truthy
unless zero, strings are truthy unless empty, datetimes are truthy. -/
def Cell.truthy : Cell → Bool
  | .empty => true
  | .num q => q != 0
  | .str s => s ≠ ""
  | .date _ _ _ => true

/-- Python `str()` of a cell value as the source observes it ( `str(x)` on
the identity-code cell).  NaN prints as "nan"; integers print their
digits; non-integer rationals print with a decimal point (the exact text
is irrelevant to every property proved here - it only needs to fail the
11-digit test, which any text containing a dot does). -/
def Cell.pyStr : Cell → String
  | .empty => "nan"
  | .num q => if q.den = 1 then toString q.num else toString q.num ++ "." ++ toString q.den
  | .str s => s
  | .date y m d => toString y ++ "-" ++ toString m ++ "-" ++ toString d

/-- A calendar date (year, month, day). -/
structure PDate where
  year : Nat
  month : Nat
  day : Nat
deriving DecidableEq, Repr

/-- A Python `datetime` at second granularity. -/
structure DT where
  year : Nat
  month : Nat
  day : Nat
  hour : Nat
  minute : Nat
  second : Nat
deriving DecidableEq, Repr

/-- Lexicographic strict order on datetimes, following Python `datetime`
comparison. -/
def dtLt (a b : DT) : Bool :=
  if a.year ≠ b.year then a.year < b.year
  else if a.month ≠ b.month then a.month < b.month
  else if a.day ≠ b.day then a.day < b.day
  else if a.hour ≠ b.hour then a.hour < b.hour
  else if a.minute ≠ b.minute then a.minute < b.minute
  else a.second < b.second

/-- Lexicographic strict order on dates. -/
def pdateLt (a b : PDate) : Bool :=
  if a.year ≠ b.year then a.year < b.year
  else if a.month ≠ b.month then a.month < b.month
  else a.day < b.day

/-- The date part of a datetime (`strftime('%Y-%m-%d')` then parse). -/
def DT.dateOf (t : DT) : PDate := ⟨t.year, t.month, t.day⟩

/-! ## Filename parsing (validate_filename / extract_leader_name /
extract_date_and_sucursal) -/

/-- Python `"s".split('+')` on a character list: splits at every
occurrence of the separator, keeping empty segments. -/
def splitPlus : List Char → List (List Char)
  | [] => [[]]
  | c :: rest =>
    if c = '+' then [] :: splitPlus rest
    else
      match splitPlus rest with
      | g :: gs => (c :: g) :: gs
      | [] => [[c]]

/-- Python `s.replace('.xlsx', '')`: removes every occurrence of the
substring ".xlsx", scanning left to right without overlap. -/
def removeXlsx : List Char → List Char
  | '.' :: 'x' :: 'l' :: 's' :: 'x' :: rest => removeXlsx rest
  | c :: rest => c :: removeXlsx rest
  | [] => []

/-- Does the tail of the filename (everything after the first '+') match
the regex fragment `.+\+.+\.xlsx$`?  Equivalent to: the tail ends in the
literal ".xlsx", and the part before it splits as `a ++ "+" ++ b` with
`a`, `b` nonempty and (since `.` does not match a newline) free of
newline characters. -/
def tailMatch (r : List Char) : Bool :=
  ('.' :: 'x' :: 'l' :: 's' :: 'x' :: []).isSuffixOf r &&
  (let core := r.take (r.length - 5)
   decide (3 ≤ core.length) && !core.contains '\n' && (core.tail.dropLast).contains '+')

/-- `validate_filename` on the character list: the regex
`^\d{2}-\d{2}-\d{4}\+.+\+.+\.xlsx$` (Python `re.match`, `$` taken as end
of string). -/
def validateFilenameL : List Char → Bool
  | d1 :: d2 :: '-' :: m1 :: m2 :: '-' :: y1 :: y2 :: y3 :: y4 :: '+' :: rest =>
    d1.isDigit && d2.isDigit && m1.isDigit && m2.isDigit &&
    y1.isDigit && y2.isDigit && y3.isDigit && y4.isDigit && tailMatch rest
  | _ => false

/-- `validate_filename(filename)`: true when the filename matches the
required pattern `DD-MM-YYYY+<unit>+<submitter>.xlsx`. -/
def validate_filename (s : String) : Bool := validateFilenameL s.data

/-- `extract_leader_name(filename)`: last '+'-separated segment with every
occurrence of ".xlsx" removed (Python `replace`). -/
def extract_leader_name (s : String) : String :=
  ⟨removeXlsx ((splitPlus s.data).getLastD [])⟩

/-- `extract_date_and_sucursal(filename)`: the first two '+'-separated
segments; `(None, None)` when there is no second segment (IndexError). -/
def extract_date_and_sucursal (s : String) : Option String × Option String :=
  let parts := splitPlus s.data
  match parts with
  | f :: su :: _ => (some ⟨f⟩, some ⟨su⟩)
  | _ => (none, none)

example : validate_filename "01-04-2025+empresa+lider.xlsx" = true := by decide
example : validate_filename "1-04-2025+empresa+lider.xlsx" = false := by decide
example : validate_filename "01-04-2025+empresa.xlsx" = false := by decide
example : extract_leader_name "01-04-2025+empresa+lider.xlsx" = "lider" := by decide
example : extract_leader_name "01-04-2025+u+a.xlsxb.xlsx" = "ab" := by decide
example : extract_date_and_sucursal "01-04-2025+empresa+lider.xlsx"
    = (some "01-04-2025", some "empresa") := by decide

/-! ## Date parsing and the adjustment classifier
(validate_file_date is present in the source but its call is commented
out; it is not part of any claim's pipeline) -/

/-- Days in a month, with the Gregorian leap-year rule (what Python
`datetime` accepts). -/
def daysInMonth (y m : Nat) : Nat :=
  if m = 2 then
    if y % 4 = 0 ∧ (y % 100 ≠ 0 ∨ y % 400 = 0) then 29 else 28
  else if m = 4 ∨ m = 6 ∨ m = 9 ∨ m = 11 then 30
  else 31

/-- Is (y, m, d) a real calendar date? -/
def validDate (y m d : Nat) : Bool :=
  1 ≤ m ∧ m ≤ 12 ∧ 1 ≤ d ∧ d ≤ daysInMonth y m

/-- Numeric value of a run of digit characters. -/
def digitsVal (l : List Char) : Nat :=
  l.foldl (fun acc c => acc * 10 + (c.toNat - 48)) 0

/-- `datetime.strptime(s, '%d-%m-%Y')` restricted to the zero-padded form
the rest of the source produces and consumes: two digit day, two digit
month, four digit year, checked to be a real calendar date; `none` models
the ValueError branch. -/
def parseDashDate (s : String) : Option PDate :=
  match s.data with
  | [d1, d2, '-', m1, m2, '-', y1, y2, y3, y4] =>
    if d1.isDigit ∧ d2.isDigit ∧ m1.isDigit ∧ m2.isDigit ∧
        y1.isDigit ∧ y2.isDigit ∧ y3.isDigit ∧ y4.isDigit then
      let d := digitsVal [d1, d2]
      let m := digitsVal [m1, m2]
      let y := digitsVal [y1, y2, y3, y4]
      if validDate y m d then some ⟨y, m, d⟩ else none
    else none
  | _ => none

/-- `datetime.strptime(s, '%d/%m/%Y')` in the same zero-padded form, used
for the update-date column. -/
def parseSlashDate (s : String) : Option PDate :=
  match s.data with
  | [d1, d2, '/', m1, m2, '/', y1, y2, y3, y4] =>
    if d1.isDigit ∧ d2.isDigit ∧ m1.isDigit ∧ m2.isDigit ∧
        y1.isDigit ∧ y2.isDigit ∧ y3.isDigit ∧ y4.isDigit then
      let d := digitsVal [d1, d2]
      let m := digitsVal [m1, m2]
      let y := digitsVal [y1, y2, y3, y4]
      if validDate y m d then some ⟨y, m, d⟩ else none
    else none
  | _ => none

/-- Zero-padded two-digit rendering of a number below 100. -/
def pad2 (n : Nat) : String :=
  if n < 10 then "0" ++ toString n else toString n

/-- Zero-padded four-digit rendering. -/
def pad4 (n : Nat) : String :=
  if n < 10 then "000" ++ toString n
  else if n < 100 then "00" ++ toString n
  else if n < 1000 then "0" ++ toString n
  else toString n

/-- `strftime('%d-%m-%Y')` of a date. -/
def fmtDashDate (p : PDate) : String :=
  pad2 p.day ++ "-" ++ pad2 p.month ++ "-" ++ pad4 p.year

/-- `normalize_fecha_to_first_day(fecha_str)`: replace the day by 01 when
the string parses as dd-mm-aaaa, otherwise return the input unchanged. -/
def normalize_fecha_to_first_day (s : String) : String :=
  match parseDashDate s with
  | some p => fmtDashDate ⟨p.year, p.month, 1⟩
  | none => s

/-- The month/year arithmetic of the source: previous calendar month of
the processing datetime. -/
def prevMonthOf (now : DT) : Nat := if now.month > 1 then now.month - 1 else 12

/-- Year holding the previous calendar month. -/
def prevYearOf (now : DT) : Nat := if now.month > 1 then now.year else now.year - 1

/-- Month two calendar months before the processing datetime
(source expression: `now.month - 2 if now.month > 2 else 12 + (now.month - 2)`). -/
def twoMonthsAgoOf (now : DT) : Nat :=
  if now.month > 2 then now.month - 2 else 12 + now.month - 2

/-- Year holding the month two months before. -/
def twoMonthsAgoYearOf (now : DT) : Nat :=
  if now.month > 2 then now.year else now.year - 1

/-- Core of `determine_tablero_type` after the filename date has been
parsed: compares the declared date's month/year to the processing
datetime; for the prior month the cutoff is the datetime
`(year, month, 21, 0, 0, 0)` compared strictly against the processing
datetime. -/
def determineTableroCore (fd : PDate) (now : DT) : String :=
  let ajusteFecha : DT := ⟨now.year, now.month, 21, 0, 0, 0⟩
  if fd.month = now.month ∧ fd.year = now.year then "Normal"
  else if fd.month = prevMonthOf now ∧ fd.year = prevYearOf now then
    if dtLt ajusteFecha now then "Ajuste" else "Normal"
  else if fd.month = twoMonthsAgoOf now ∧ fd.year = twoMonthsAgoYearOf now then "Ajuste"
  else "Normal"

/-- `determine_tablero_type(fecha, upload_datetime)`: parses the declared
date string and classifies; `none` models the uncaught ValueError that
the caller's outer handler turns into a rejection. -/
def determine_tablero_type (fecha : String) (now : DT) : Option String :=
  (parseDashDate fecha).map (fun fd => determineTableroCore fd now)

example : determine_tablero_type "15-03-2025" ⟨2025, 4, 21, 0, 0, 0⟩ = some "Normal" := by decide
example : determine_tablero_type "15-03-2025" ⟨2025, 4, 21, 12, 0, 0⟩ = some "Ajuste" := by decide
example : determine_tablero_type "15-03-2025" ⟨2025, 4, 22, 0, 0, 0⟩ = some "Ajuste" := by decide
example : determine_tablero_type "15-02-2025" ⟨2025, 4, 2, 0, 0, 0⟩ = some "Ajuste" := by decide
example : determine_tablero_type "15-12-2024" ⟨2025, 1, 10, 0, 0, 0⟩ = some "Normal" := by decide
example : normalize_fecha_to_first_day "03-04-2025" = "01-04-2025" := by decide
example : normalize_fecha_to_first_day "99-04-2025" = "99-04-2025" := by decide

/-! ## Period index store (\_load_period_index / \_save_period_index),
duplicate checking and merge-append -/

/-- A persisted CSV at field granularity: a list of rows of string
fields.  pandas `to_csv` writes both None and the empty string as an
empty field, and `read_csv` reads an empty field back as NaN; quoting
makes every other field content lossless, so fields are kept as plain
strings. -/
abbrev Blob := List (List String)

/-- The S3 bucket: an association list from keys to blobs, newest
binding first. -/
structure UState where
  blobs : List (String × Blob)
deriving DecidableEq, Repr

/-- `get_object`: `none` is the NoSuchKey outcome. -/
def getBlob (st : UState) (k : String) : Option Blob :=
  (st.blobs.find? (fun p => p.1 = k)).map (fun p => p.2)

/-- `put_object`: full overwrite of one key. -/
def putBlob (st : UState) (k : String) (b : Blob) : UState :=
  ⟨(k, b) :: st.blobs⟩

/-- One row of the period index: Periodo, CUIL, Lider, each possibly
NaN/None. -/
structure IndexEntry where
  periodo : Option String
  cuil : Option String
  lider : Option String
deriving DecidableEq, Repr

/-- Field as written by `to_csv` (None becomes an empty field). -/
def encField : Option String → String
  | none => ""
  | some s => s

/-- Field as read back by `read_csv` (an empty field is NaN). -/
def decField (s : String) : Option String :=
  if s = "" then none else some s

/-- `str()` applied to a possibly-NaN field (`astype(str)`): NaN prints
as "nan". -/
def optStr : Option String → String
  | none => "nan"
  | some s => s

/-- `_get_period_index_key(periodo_str)`. -/
def indexKey (periodo : String) : String := periodo ++ "/indice.csv"

/-- The index DataFrame as `to_csv` lays it out: a header row followed by
one row per entry. -/
def encodeIndex (entries : List IndexEntry) : Blob :=
  ["Periodo", "CUIL", "Lider"] ::
    entries.map (fun e => [encField e.periodo, encField e.cuil, encField e.lider])

/-- Reading one field of a parsed row given the column's position in the
header (`none` position: the column is absent and was refilled with
None; a row shorter than the header reads as NaN). -/
def fieldAt (r : List String) : Option Nat → Option String
  | none => none
  | some i => decField (r.getD i "")

/-- The load path of `_load_period_index` applied to a stored blob:
EmptyDataError on a contentless file, otherwise locate the three
expected columns by name (absent ones become None columns) and project
to them. -/
def decodeIndex : Blob → List IndexEntry
  | [] => []
  | header :: rows =>
    let ip := header.findIdx? (fun s => s = "Periodo")
    let ic := header.findIdx? (fun s => s = "CUIL")
    let il := header.findIdx? (fun s => s = "Lider")
    rows.map (fun r => ⟨fieldAt r ip, fieldAt r ic, fieldAt r il⟩)

/-- `_load_period_index(periodo_str)`: absent key is an empty index. -/
def _load_period_index (st : UState) (periodo : String) : List IndexEntry :=
  match getBlob st (indexKey periodo) with
  | none => []
  | some b => decodeIndex b

/-- `_save_period_index(df, periodo_str)`: full overwrite of the
period's index file. -/
def _save_period_index (st : UState) (entries : List IndexEntry) (periodo : String) : UState :=
  putBlob st (indexKey periodo) (encodeIndex entries)

/-- The loop body of `check_for_duplicates` for one incoming identity:
look up its first matching index row; a missing row, a null owner (and
an empty-string owner, both falsy in Python) and the submitting leader
itself produce no conflict; any other owner produces the pair
`(identity, recorded owner)`. -/
def conflictSel (idx : List IndexEntry) (leaderName : String) (c : String) :
    Option (String × String) :=
  match idx.find? (fun e => optStr e.cuil = c) with
  | none => none
  | some e =>
    match e.lider with
    | none => none
    | some l => if l ≠ "" ∧ l ≠ leaderName then some (c, l) else none

/-- `check_for_duplicates(cuils, fecha_normalizada, leader_name)`:
normalizes the period, loads its index, and collects, in incoming order,
each incoming identity whose first matching index row has a recorded
owner that is non-null, non-empty (Python truthiness) and different from
the submitting leader.  An empty index short-circuits to no conflicts. -/
def check_for_duplicates (st : UState) (cuils : List String) (fechaNormalizada : String)
    (leaderName : String) : Bool × List (String × String) :=
  let periodo := normalize_fecha_to_first_day fechaNormalizada
  let idx := _load_period_index st periodo
  if idx = [] then (false, [])
  else
    let conflicts := cuils.filterMap (conflictSel idx leaderName)
    (!conflicts.isEmpty, conflicts)

/-- `_update_period_index_with_upload(periodo_str, cuils, leader_name)`:
stringifies the CUIL column, appends one `(Periodo, CUIL, Lider)` row
for each incoming identity with no matching row (matching rows are left
untouched whether the recorded owner is the same leader, another leader,
or null), and saves the whole table.  `addSel` is the loop body for one
incoming identity: `none` when some row already carries that identity
(whoever owns it), a fresh `(Periodo, CUIL, Lider)` row otherwise. -/
def addSel (df : List IndexEntry) (periodoStr leaderName : String) (c : String) :
    Option IndexEntry :=
  if df.any (fun e => optStr e.cuil = c) then none
  else some ({ periodo := some periodoStr, cuil := some c, lider := some leaderName } : IndexEntry)

def _update_period_index_with_upload (st : UState) (periodoStr : String)
    (cuils : List String) (leaderName : String) : UState :=
  let df := (_load_period_index st periodoStr).map
    (fun e => { e with cuil := some (optStr e.cuil) })
  let toAdd := cuils.filterMap (addSel df periodoStr leaderName)
  _save_period_index st (df ++ toAdd) periodoStr

example :
    _load_period_index
      (_save_period_index ⟨[]⟩ [⟨some "01-04-2025", some "12345678901", some "A"⟩] "01-04-2025")
      "01-04-2025"
    = [⟨some "01-04-2025", some "12345678901", some "A"⟩] := by decide

example :
    check_for_duplicates
      (_save_period_index ⟨[]⟩ [⟨some "01-04-2025", some "12345678901", some "A"⟩] "01-04-2025")
      ["12345678901"] "01-04-2025" "B"
    = (true, [("12345678901", "A")]) := by decide

example :
    check_for_duplicates
      (_save_period_index ⟨[]⟩ [⟨some "01-04-2025", some "12345678901", some "A"⟩] "01-04-2025")
      ["12345678901"] "01-04-2025" "A"
    = (false, []) := by decide

/-! ## Sheet grids, form-cell validation and restructuring -/

/-- A raw worksheet as `excel_data.parse(sheet_name, header=None)` hands
it over: rows of cells; pandas pads ragged rows with NaN up to the
widest row. -/
abbrev Grid := List (List Cell)

/-- Number of rows. -/
def nrowsG (g : Grid) : Nat := g.length

/-- Number of columns of the parsed DataFrame: the widest row. -/
def ncolsG (g : Grid) : Nat := g.foldr (fun r acc => max r.length acc) 0

/-- Cell at (row, col) inside the padded rectangle. -/
def gridCell (g : Grid) (r c : Nat) : Cell := (g.getD r []).getD c Cell.empty

/-- Label/positional access as `.at`/`.iloc` perform it: `none` models
the KeyError/IndexError outside the rectangle. -/
def gridAt (g : Grid) (r c : Nat) : Option Cell :=
  if r < nrowsG g ∧ c < ncolsG g then some (gridCell g r c) else none

/-- `pd.isna` on a cell. -/
def Cell.isNa : Cell → Bool
  | .empty => true
  | _ => false

/-- Is the cell an int/float? -/
def Cell.isNumber : Cell → Bool
  | .num _ => true
  | _ => false

/-- Is the cell an int/float with an integral value
(`float(x).is_integer()`)? -/
def Cell.isIntegral : Cell → Bool
  | .num q => q.den = 1
  | _ => false

/-- The 11-digit identity-code pattern `^\d{11}$`. -/
def is11Digits (s : String) : Bool :=
  s.data.length = 11 && s.data.all Char.isDigit

/-- `verify_sheet_structure(sheet_data, ...)`: fails when the DataFrame
is empty or has no column. -/
def verify_sheet_structure (g : Grid) : Bool :=
  !(nrowsG g = 0 || ncolsG g = 0 || ncolsG g < 1 : Bool)

/-- `validate_form_cells(sheet_data, ...)`: cells B1-B4 non-empty, B2 an
11-digit string, K1/K4/K5 absent or integral numbers, K2/K3 absent or
numbers.  Any cell access outside the sheet raises and the handler
returns failure, so all nine accesses must be in range. -/
def validate_form_cells (g : Grid) : Bool :=
  match gridAt g 0 1, gridAt g 1 1, gridAt g 2 1, gridAt g 3 1,
      gridAt g 0 10, gridAt g 1 10, gridAt g 2 10, gridAt g 3 10, gridAt g 4 10 with
  | some b1, some b2, some b3, some b4, some k1, some k2, some k3, some k4, some k5 =>
    !b1.isNa && !b2.isNa && !b3.isNa && !b4.isNa &&
    is11Digits b2.pyStr &&
    (k1.isNa || k1.isIntegral) &&
    (k2.isNa || k2.isNumber) &&
    (k3.isNa || k3.isNumber) &&
    (k4.isNa || k4.isIntegral) &&
    (k5.isNa || k5.isIntegral)
  | _, _, _, _, _, _, _, _, _ => false

/-- `extract_data_from_form(sheet_data)`: the four header fields and the
five optional numeric cells; a cargo string containing a comma is
wrapped in double quotes; any IndexError yields the all-None tuple,
modelled as `none`. -/
def extract_data_from_form (g : Grid) :
    Option (Cell × Cell × Cell × Cell × Cell × Cell × Cell × Cell × Cell) :=
  match gridAt g 0 1, gridAt g 1 1, gridAt g 2 1, gridAt g 3 1,
      gridAt g 0 10, gridAt g 1 10, gridAt g 2 10, gridAt g 3 10, gridAt g 4 10 with
  | some c0, some cu, some seg, some ar, some k1, some k2, some k3, some k4, some k5 =>
    let cargo := match c0 with
      | .str s => if s.data.contains ',' then Cell.str ("\"" ++ s ++ "\"") else Cell.str s
      | c => c
    some (cargo, cu, seg, ar, k1, k2, k3, k4, k5)
  | _, _, _, _, _, _, _, _, _ => none

/-- The 13 required indicator-table columns. -/
def requiredColumns : List String :=
  ["Tipo Indicador", "Tipo Dato", "Indicadores de Gestion", "Ponderacion",
   "Objetivo Aceptable (70%)", "Objetivo Muy Bueno (90%)", "Objetivo Excelente (120%)",
   "Resultado", "% Logro", "Calificación", "Ultima Fecha de Actualización",
   "Lider Revisor", "Comentario"]

/-- `count_rows_until_empty(data)`: find the row whose column-2 cell is
the literal "Indicadores de Gestion" and walk column 2 below it to the
first empty cell.  Every failure path of the source yields 0: the header
missing (IndexError, caught inside), the header on the last row (idxmax
on an empty series, caught inside), and no empty cell below the header
(idxmax of an all-False mask returns the first label). -/
def count_rows_until_empty (g : Grid) : Nat :=
  match g.findIdx? (fun row => row.getD 2 Cell.empty = Cell.str "Indicadores de Gestion") with
  | none => 0
  | some h =>
    match (g.drop (h + 1)).map (fun r => r.getD 2 Cell.empty) with
    | [] => 0
    | rel => (rel.findIdx? Cell.isNa).getD 0

/-- Row `r` padded to the sheet's column count (`data.iloc[r]`). -/
def paddedRow (g : Grid) (r : Nat) : List Cell :=
  (List.range (ncolsG g)).map (fun c => gridCell g r c)

/-- Position of a named column among the promoted header cells. -/
def colPos (headerCells : List Cell) (name : String) : Option Nat :=
  headerCells.findIdx? (fun c => c = Cell.str name)

/-- `data[name]` for the sliced indicator table. -/
def getCol (tableRows : List (List Cell)) (headerCells : List Cell) (name : String) :
    List Cell :=
  match colPos headerCells name with
  | some i => tableRows.map (fun r => r.getD i Cell.empty)
  | none => []

/-- `validate_required_columns(data)`. -/
def validate_required_columns (headerCells : List Cell) : Bool × List String :=
  let missing := requiredColumns.filter (fun n => !(headerCells.contains (Cell.str n)))
  (missing.isEmpty, missing)

/-- `validate_ponderacion(data, ...)`: true when no weighting cell equals
the number 0 (`(data['Ponderacion'] == 0).any()`; under pandas
elementwise equality only a numeric cell can equal 0). -/
def validate_ponderacion (pond : List Cell) : Bool :=
  !(pond.any (fun c => c = Cell.num 0))

/-- Sum of the weighting column as pandas `.sum()` computes it over the
numeric cells, skipping NaN. -/
def pondSum (pond : List Cell) : ℚ :=
  pond.foldl (fun acc c => match c with | .num q => acc + q | _ => acc) 0

/-- `validate_ponderacion_sum(data, ...)`: `0.99 <= sum <= 1.1`.  A text
or datetime cell in the column makes the underlying sum/comparison raise
a TypeError that escapes this function, modelled as the error case. -/
def validate_ponderacion_sum (pond : List Cell) : Except Unit Bool :=
  if pond.any (fun c => match c with
      | .str _ => true
      | .date _ _ _ => true
      | _ => false) then .error ()
  else .ok (decide ((0.99 : ℚ) ≤ pondSum pond ∧ pondSum pond ≤ (1.1 : ℚ)))

/-- The numeric-or-percent shape `^\s*-?\d+(\.\d+)?\s*%?\s*$` accepted
for a textual objective cell. -/
def matchOptPercent (l : List Char) : Bool :=
  let l1 := l.dropWhile Char.isWhitespace
  let l2 := match l1 with
    | '-' :: r => r
    | _ => l1
  let ds := l2.takeWhile Char.isDigit
  let l3 := l2.dropWhile Char.isDigit
  if ds.isEmpty then false
  else
    let (okFrac, l4) := match l3 with
      | '.' :: r => (!(r.takeWhile Char.isDigit).isEmpty, r.dropWhile Char.isDigit)
      | _ => (true, l3)
    if !okFrac then false
    else
      let l5 := l4.dropWhile Char.isWhitespace
      let l6 := match l5 with
        | '%' :: r => r
        | _ => l5
      (l6.dropWhile Char.isWhitespace).isEmpty

/-- `is_valid_objetivo(x)`: absent, numeric, or text of the
numeric-or-percent shape. -/
def is_valid_objetivo (c : Cell) : Bool :=
  match c with
  | .empty => true
  | .num _ => true
  | .str s => matchOptPercent s.data
  | .date _ _ _ => false

/-- Strip whitespace from both ends (Python `str.strip()`). -/
def stripWs (l : List Char) : List Char :=
  ((l.dropWhile Char.isWhitespace).reverse.dropWhile Char.isWhitespace).reverse

/-- Python `float()` restricted to the `-?digits(.digits)?` texts that
survive the objective-shape check (the wider float grammar is never
reached). -/
def parseFloatQ (l : List Char) : Option ℚ :=
  let (neg, l1) := match l with
    | '-' :: r => (true, r)
    | _ => (false, l)
  let ds := l1.takeWhile Char.isDigit
  let l2 := l1.dropWhile Char.isDigit
  if ds.isEmpty then none
  else
    let intPart : ℚ := (digitsVal ds : ℚ)
    let value? : Option ℚ :=
      match l2 with
      | [] => some intPart
      | '.' :: fs =>
        if !fs.isEmpty && fs.all Char.isDigit then
          some (intPart + (digitsVal fs : ℚ) / ((10 : ℚ) ^ fs.length))
        else none
      | _ => none
    value?.map (fun v => if neg then -v else v)

/-- `parse_objetivo(val)`: numbers stay, text is stripped, commas become
dots, a trailing `%` divides by 100; an unparseable text becomes None
(modelled as the absent cell, which pandas treats identically). -/
def parseObjetivo (c : Cell) : Cell :=
  match c with
  | .empty => .empty
  | .num q => .num q
  | .date _ _ _ => .empty
  | .str s =>
    let t := stripWs (s.data.map (fun ch => if ch = ',' then '.' else ch))
    if t.getLastD ' ' = '%' then
      match parseFloatQ (stripWs (t.reverse.dropWhile (fun ch => ch = '%')).reverse) with
      | some q => .num (q / 100)
      | none => .empty
    else
      match parseFloatQ t with
      | some q => .num q
      | none => .empty

/-- One objective column: shape check, conversion, residual check
(`error` covers both InvalidObjective messages of the source). -/
def processObjetivo (cells : List Cell) : Except Unit (List Cell) :=
  if !(cells.all is_valid_objetivo) then .error ()
  else
    let parsed := cells.map parseObjetivo
    if !(parsed.all (fun c => c.isNa || c.isNumber)) then .error ()
    else .ok parsed

/-- The failure cases of `clean_and_restructure_until_empty`:
`exc` is the outer exception handler (header row missing, weighting
column of text, ...), the rest are the logged validation errors. -/
inductive CleanErr where
  | exc : CleanErr
  | emptyTable : CleanErr
  | missingCols (cols : List String) : CleanErr
  | invalidObjetivo (col : String) : CleanErr
  | zeroWeight : CleanErr
  | sumRange : CleanErr
deriving DecidableEq, Repr

/-- A normalized output row: the 26-field projection of
`desired_columns` (Cargo, CUIL, Segmento, Área de influencia, Nombre
Lider, Fecha_Nombre_Archivo, Sucursal, Fecha Horario Subida, the 13
indicator columns, the five K-cells). -/
abbrev Record := List Cell

/-- None-or-string to cell (the filename-derived fields). -/
def Cell.ofOptStr : Option String → Cell
  | some s => .str s
  | none => .empty

/-- The "Tipo Indicador" header row index
(`data[data.iloc[:, 0] == 'Tipo Indicador'].index[0]`; `none` is the
IndexError the outer handler catches). -/
def headerRowOf (g : Grid) : Option Nat :=
  g.findIdx? (fun row => row.getD 0 Cell.empty = Cell.str "Tipo Indicador")

/-- The promoted header labels (`data.columns = data.iloc[header_row]`). -/
def headerCellsOf (g : Grid) (headerRow : Nat) : List Cell := paddedRow g headerRow

/-- The sliced indicator table
(`data.iloc[header_row+1 : header_row+1+rows_to_process]`), rows padded
to the sheet's width. -/
def tableRowsOf (g : Grid) (headerRow : Nat) : List (List Cell) :=
  ((g.drop (headerRow + 1)).take (count_rows_until_empty g)).map
    (fun r => (List.range (ncolsG g)).map (fun c => r.getD c Cell.empty))

/-- `clean_and_restructure_until_empty(...)`: locate the "Tipo
Indicador" header row, measure the table, promote the header, check the
13 required columns, validate and convert the three objective columns,
check the weighting column (zero rows first, then the sum tolerance),
and emit one 26-field record per indicator row. -/
def clean_and_restructure (g : Grid) (cargo cuil segmento area : Cell)
    (leaderName : String) (fecha sucursal : Option String) (uploadDatetime : String)
    (k1 k2 k3 k4 k5 : Cell) : Except CleanErr (List Record) :=
  match headerRowOf g with
  | none => .error .exc
  | some headerRow =>
    let rowsToProcess := count_rows_until_empty g
    if rowsToProcess = 0 then .error .emptyTable
    else
      let headerCells := headerCellsOf g headerRow
      let tableRows := tableRowsOf g headerRow
      let rc := validate_required_columns headerCells
      if !rc.1 then .error (.missingCols rc.2)
      else
        match processObjetivo (getCol tableRows headerCells "Objetivo Aceptable (70%)") with
        | .error _ => .error (.invalidObjetivo "Objetivo Aceptable (70%)")
        | .ok obj70 =>
        match processObjetivo (getCol tableRows headerCells "Objetivo Muy Bueno (90%)") with
        | .error _ => .error (.invalidObjetivo "Objetivo Muy Bueno (90%)")
        | .ok obj90 =>
        match processObjetivo (getCol tableRows headerCells "Objetivo Excelente (120%)") with
        | .error _ => .error (.invalidObjetivo "Objetivo Excelente (120%)")
        | .ok obj120 =>
          let pond := getCol tableRows headerCells "Ponderacion"
          if !validate_ponderacion pond then .error .zeroWeight
          else
            match validate_ponderacion_sum pond with
            | .error _ => .error .exc
            | .ok false => .error .sumRange
            | .ok true =>
              .ok ((List.range tableRows.length).map (fun i =>
                [cargo, cuil, segmento, area, Cell.str leaderName,
                 Cell.ofOptStr fecha, Cell.ofOptStr sucursal, Cell.str uploadDatetime,
                 (getCol tableRows headerCells "Tipo Indicador").getD i Cell.empty,
                 (getCol tableRows headerCells "Tipo Dato").getD i Cell.empty,
                 (getCol tableRows headerCells "Indicadores de Gestion").getD i Cell.empty,
                 pond.getD i Cell.empty,
                 obj70.getD i Cell.empty, obj90.getD i Cell.empty, obj120.getD i Cell.empty,
                 (getCol tableRows headerCells "Resultado").getD i Cell.empty,
                 (getCol tableRows headerCells "% Logro").getD i Cell.empty,
                 (getCol tableRows headerCells "Calificación").getD i Cell.empty,
                 (getCol tableRows headerCells "Ultima Fecha de Actualización").getD i Cell.empty,
                 (getCol tableRows headerCells "Lider Revisor").getD i Cell.empty,
                 (getCol tableRows headerCells "Comentario").getD i Cell.empty,
                 k1, k2, k3, k4, k5]))

/-- `validate_update_dates(data, ...)` (the projected column always
exists in a restructured record, so the column-presence guard of the
source cannot fire): no absent values, every value parses under
dd/mm/yyyy (`errors='coerce'`, datetimes pass through, numbers coerce to
NaT), and no parsed date is after the processing date; on success the
column is replaced by the parsed datetimes, mutating the records that
flow onward. -/
def validate_update_dates (records : List Record) (nowDate : PDate) :
    Option (List Record) :=
  let dates := records.map (fun r => r.getD 18 Cell.empty)
  if dates.any Cell.isNa then none
  else
    let conv := dates.map (fun c => match c with
      | .str s =>
        match parseSlashDate s with
        | some p => Cell.date p.year p.month p.day
        | none => Cell.empty
      | .date y m d => Cell.date y m d
      | _ => Cell.empty)
    if conv.any Cell.isNa then none
    else if conv.any (fun c => match c with
        | .date y m d => pdateLt nowDate ⟨y, m, d⟩
        | _ => false) then none
    else some (records.zipWith (fun r c => r.set 18 c) conv)

/-- Python-order duplicate removal (`pandas.unique`: first occurrences,
order preserved); the accumulator holds the values already seen. -/
def pyUniqueAux {α : Type} [DecidableEq α] : List α → List α → List α
  | _, [] => []
  | seen, a :: l =>
    if a ∈ seen then pyUniqueAux seen l else a :: pyUniqueAux (a :: seen) l

/-- `df['CUIL'].unique()`-style deduplication. -/
def pyUnique {α : Type} [DecidableEq α] (l : List α) : List α := pyUniqueAux [] l

/-- What one iteration of the sheet loop does with one sheet: abort the
workbook, silently skip the sheet, or contribute its records. -/
inductive SheetOutcome where
  | fail : SheetOutcome
  | skip : SheetOutcome
  | ok (recs : List Record) : SheetOutcome
deriving DecidableEq, Repr

/-- One sheet of `process_sheets_until_empty`'s loop: the structure,
form-cell, restructure and update-date gates abort; a sheet whose
extracted header fields are not all truthy is skipped without error. -/
def perSheet (leaderName : String) (fecha sucursal : Option String)
    (uploadDatetime : String) (nowDate : PDate) (g : Grid) : SheetOutcome :=
  if !verify_sheet_structure g then .fail
  else if !validate_form_cells g then .fail
  else
    match extract_data_from_form g with
    | none => .skip
    | some (cargo, cuil, seg, area, k1, k2, k3, k4, k5) =>
      if cargo.truthy && cuil.truthy && seg.truthy && area.truthy then
        match clean_and_restructure g cargo cuil seg area leaderName fecha sucursal
            uploadDatetime k1 k2 k3 k4 k5 with
        | .error _ => .fail
        | .ok recs =>
          if recs.isEmpty then .fail
          else
            match validate_update_dates recs nowDate with
            | none => .fail
            | some recs2 => .ok recs2
      else .skip

/-- The sheet loop, carrying the list of per-sheet record sets
(`dataframes`); after the loop, the cross-sheet identity-uniqueness gate
(`validate_unique_cuils`) and the concatenation into `final_data`. -/
def processSheetsGo (leaderName : String) (fecha sucursal : Option String)
    (uploadDatetime : String) (nowDate : PDate) :
    List (String × Grid) → List (List Record) → List Record × Bool
  | [], dfs =>
    let cuils := (dfs.map (fun df => pyUnique (df.map (fun r => r.getD 1 Cell.empty)))).flatten
    if cuils.Nodup then (dfs.flatten, true) else ([], false)
  | (_, g) :: rest, dfs =>
    match perSheet leaderName fecha sucursal uploadDatetime nowDate g with
    | .fail => ([], false)
    | .skip => processSheetsGo leaderName fecha sucursal uploadDatetime nowDate rest dfs
    | .ok recs => processSheetsGo leaderName fecha sucursal uploadDatetime nowDate rest (dfs ++ [recs])

/-- `process_sheets_until_empty(excel_data, filename, upload_datetime)`:
parse the filename parts once, run every sheet through the gate
sequence, and return either the concatenated record set with success, or
the empty set with failure. -/
def process_sheets_until_empty (wb : List (String × Grid)) (filename : String)
    (uploadDatetime : String) (nowDate : PDate) : List Record × Bool :=
  let leaderName := extract_leader_name filename
  let fs := extract_date_and_sucursal filename
  processSheetsGo leaderName fs.1 fs.2 uploadDatetime nowDate wb []

/-- A fully valid example sheet: header form cells, a one-row indicator
table with weighting 1, and an in-the-past update date. -/
def exSheetValid : Grid :=
  [[Cell.str "Cargo:", Cell.str "Analista", .empty, .empty, .empty, .empty, .empty, .empty, .empty, .empty, Cell.num 10],
   [.empty, Cell.str "12345678901", .empty, .empty, .empty, .empty, .empty, .empty, .empty, .empty, Cell.num 1],
   [.empty, Cell.str "Minorista", .empty, .empty, .empty, .empty, .empty, .empty, .empty, .empty, Cell.num 2],
   [.empty, Cell.str "Zona Norte", .empty, .empty, .empty, .empty, .empty, .empty, .empty, .empty, Cell.num 3],
   [.empty, .empty, .empty, .empty, .empty, .empty, .empty, .empty, .empty, .empty, Cell.num 4],
   [Cell.str "Tipo Indicador", Cell.str "Tipo Dato", Cell.str "Indicadores de Gestion",
    Cell.str "Ponderacion", Cell.str "Objetivo Aceptable (70%)", Cell.str "Objetivo Muy Bueno (90%)",
    Cell.str "Objetivo Excelente (120%)", Cell.str "Resultado", Cell.str "% Logro",
    Cell.str "Calificación", Cell.str "Ultima Fecha de Actualización", Cell.str "Lider Revisor",
    Cell.str "Comentario"],
   [Cell.str "Comercial", Cell.str "Numerico", Cell.str "Ventas", Cell.num 1,
    Cell.num 5, Cell.num 6, Cell.num 7, Cell.num 8, Cell.num 9,
    Cell.str "Buena", Cell.str "01/01/2025", Cell.str "Revisor", Cell.str "Sin comentario"],
   [.empty, .empty, .empty, .empty, .empty, .empty, .empty, .empty, .empty, .empty, .empty, .empty, .empty]]

/-- A sheet that passes the structure and form-cell gates but whose
cargo cell holds the number 0 (non-NaN, hence the form-cell gate
accepts it; falsy, hence the extraction gate skips the sheet). -/
def exSheetSkipped : Grid :=
  [[.empty, Cell.num 0, .empty, .empty, .empty, .empty, .empty, .empty, .empty, .empty, .empty],
   [.empty, Cell.str "22345678901", .empty, .empty, .empty, .empty, .empty, .empty, .empty, .empty, .empty],
   [.empty, Cell.str "Minorista", .empty, .empty, .empty, .empty, .empty, .empty, .empty, .empty, .empty],
   [.empty, Cell.str "Zona Sur", .empty, .empty, .empty, .empty, .empty, .empty, .empty, .empty, .empty],
   [.empty, .empty, .empty, .empty, .empty, .empty, .empty, .empty, .empty, .empty, .empty]]

example : verify_sheet_structure exSheetValid = true := by decide
example : validate_form_cells exSheetValid = true := by decide
example : validate_form_cells exSheetSkipped = true := by decide
example : count_rows_until_empty exSheetValid = 1 := by decide
example :
    perSheet "lider" (some "03-04-2025") (some "empresa") "05/05/2025_10:00:00"
      ⟨2025, 5, 5⟩ exSheetSkipped = .skip := by decide
example :
    (process_sheets_until_empty [("Hoja1", exSheetValid)] "03-04-2025+empresa+lider.xlsx"
      "05/05/2025_10:00:00" ⟨2025, 5, 5⟩).2 = true := by with_unfolding_all decide
example :
    (process_sheets_until_empty [("Hoja1", exSheetValid)] "03-04-2025+empresa+lider.xlsx"
      "05/05/2025_10:00:00" ⟨2025, 5, 5⟩).1.length = 1 := by with_unfolding_all decide

/-! ## The upload driver (process_and_upload_excel) -/

/-- `strftime('%d/%m/%Y_%H:%M:%S')` of the processing datetime. -/
def fmtUploadDT (t : DT) : String :=
  pad2 t.day ++ "/" ++ pad2 t.month ++ "/" ++ pad4 t.year ++ "_" ++
    pad2 t.hour ++ ":" ++ pad2 t.minute ++ ":" ++ pad2 t.second

/-- `strftime('%Y-%m-%d_%H-%M-%S')`, the key prefix of the normalized
CSV. -/
def fmtTimestampKey (t : DT) : String :=
  pad4 t.year ++ "-" ++ pad2 t.month ++ "-" ++ pad2 t.day ++ "_" ++
    pad2 t.hour ++ "-" ++ pad2 t.minute ++ "-" ++ pad2 t.second

/-- The append-only error log's key. -/
def logKey : String := "Errores.txt"

/-- `log_error_to_s3(error_message, filename)`: read the log blob (a
fresh one when absent or unreadable), append one row, write it back.
Only the key "Errores.txt" is touched. -/
def logError (st : UState) (now : DT) (msg filename : String) : UState :=
  let row := [fmtTimestampKey now, fmtUploadDT now, msg, filename]
  match getBlob st logKey with
  | none => putBlob st logKey ([["Fecha", "Hora", "Error", "NombreArchivo"], row])
  | some b => putBlob st logKey (b ++ [row])

/-- Rendering of a cell into the normalized-output CSV (field level, as
for the index blob; the exact text of numeric and date fields plays no
role in any property below). -/
def cellCsv : Cell → String
  | .empty => ""
  | .num q => (Cell.num q).pyStr
  | .str s => s
  | .date y m d => pad4 y ++ "-" ++ pad2 m ++ "-" ++ pad2 d

/-- `cleaned_df.to_csv(...)` at field level: a header row and one row
per record (the trailing Ajuste column has already been appended). -/
def encodeRecords (records : List Record) : Blob :=
  (requiredColumns ++ ["Ajuste"]) :: records.map (fun r => r.map cellCsv)

/-- Observable store effects of one submission. -/
inductive Ev where
  | logged : Ev
  | wroteData : Ev
  | wroteIndex : Ev
deriving DecidableEq, Repr

/-- The submitter name as the driver reads it back from the cleaned
records (`cleaned_df['Nombre Lider'].iloc[0]`). -/
def leaderOfRecords (records : List Record) : String :=
  match (records.headD []).getD 4 Cell.empty with
  | .str s => s
  | c => c.pyStr

/-- The stringified unique identity codes of the cleaned records
(`cleaned_df['CUIL'].astype(str).unique().tolist()`). -/
def uniqueCuilsOf (records : List Record) : List String :=
  pyUnique (records.map (fun r => (r.getD 1 Cell.empty).pyStr))

/-- The date segment of the filename (`original_filename.split('+')[0]`). -/
def fechaArchivoOf (filename : String) : String :=
  String.mk ((splitPlus filename.data).headD [])

/-- Destination key of the normalized CSV
(`<periodo>/<timestamp>_<name-before-first-dot>.csv`). -/
def csvFilenameOf (periodoStr : String) (now : DT) (filename : String) : String :=
  periodoStr ++ "/" ++ fmtTimestampKey now ++ "_" ++
    String.mk (filename.data.takeWhile (fun c => c ≠ '.')) ++ ".csv"

/-- `process_and_upload_excel(file, original_filename)`.  Control flow of
the source, one gate at a time; `uploadOk` is the success of the S3
upload of the normalized CSV, `guardar`/`cancelar` are the two
confirmation buttons shown when the submission classifies as an
adjustment.  Returns the final store plus the trace of store effects
(the validate_file_date call of the source is commented out and does
not appear; an unparseable date segment surfaces in
`determine_tablero_type` and is caught by the outer handler). -/
def process_and_upload_excel (filename : String) (wb : List (String × Grid)) (now : DT)
    (uploadOk guardar cancelar : Bool) (st : UState) : UState × List Ev :=
  if !validate_filename filename then
    (logError st now "formato" filename, [.logged])
  else
    let uploadDatetime := fmtUploadDT now
    let pr := process_sheets_until_empty wb filename uploadDatetime now.dateOf
    if !pr.2 then (logError st now "estructura" filename, [.logged])
    else if pr.1.isEmpty then (logError st now "sin datos" filename, [.logged])
    else
      let uniqueCuils := uniqueCuilsOf pr.1
      let fechaArchivo := fechaArchivoOf filename
      let periodoStr := normalize_fecha_to_first_day fechaArchivo
      let leaderName := leaderOfRecords pr.1
      let dup := check_for_duplicates st uniqueCuils periodoStr leaderName
      if dup.1 then (logError st now "duplicados" filename, [.logged])
      else
        match determine_tablero_type fechaArchivo now with
        | none => (logError st now "excepcion" filename, [.logged])
        | some tableroType =>
          let ajusteValue := if tableroType = "Ajuste" then "SI" else "NO"
          let df2 := pr.1.map (fun r => r ++ [Cell.str ajusteValue])
          if tableroType = "Ajuste" && cancelar then (st, [])
          else if tableroType = "Ajuste" && !guardar then (st, [])
          else
            let csvFilename := csvFilenameOf periodoStr now filename
            if !uploadOk then (st, [])
            else
              let st1 := putBlob st csvFilename (encodeRecords df2)
              let st2 := _update_period_index_with_upload st1 periodoStr uniqueCuils leaderName
              (st2, [.wroteData, .wroteIndex])

example :
    (process_and_upload_excel "03-04-2025+empresa+lider.xlsx" [("Hoja1", exSheetValid)]
      ⟨2025, 5, 5, 10, 0, 0⟩ true true false ⟨[]⟩).2 = [.wroteData, .wroteIndex] := by
  with_unfolding_all decide

example :
    (_load_period_index
      (process_and_upload_excel "03-04-2025+empresa+lider.xlsx" [("Hoja1", exSheetValid)]
        ⟨2025, 5, 5, 10, 0, 0⟩ true true false ⟨[]⟩).1 "01-04-2025")
    = [⟨some "01-04-2025", some "12345678901", some "lider"⟩] := by
  with_unfolding_all decide

/-- Decidable equality for `Except` results, so concrete pipeline
outcomes can be settled by evaluation. -/
instance exceptDecEq {ε α : Type} [DecidableEq ε] [DecidableEq α] :
    DecidableEq (Except ε α)
  | .ok a, .ok b =>
    if h : a = b then .isTrue (by rw [h]) else .isFalse (by simp [h])
  | .ok _, .error _ => .isFalse (by simp)
  | .error _, .ok _ => .isFalse (by simp)
  | .error e, .error f =>
    if h : e = f then .isTrue (by rw [h]) else .isFalse (by simp [h])

/-- Like `exSheetValid` but the single indicator row carries weighting
0; its weighting sum is 0 as well, far outside the tolerance band. -/
def exSheetZeroWeight : Grid :=
  [[Cell.str "Cargo:", Cell.str "Analista", .empty, .empty, .empty, .empty, .empty, .empty, .empty, .empty, Cell.num 10],
   [.empty, Cell.str "12345678901", .empty, .empty, .empty, .empty, .empty, .empty, .empty, .empty, Cell.num 1],
   [.empty, Cell.str "Minorista", .empty, .empty, .empty, .empty, .empty, .empty, .empty, .empty, Cell.num 2],
   [.empty, Cell.str "Zona Norte", .empty, .empty, .empty, .empty, .empty, .empty, .empty, .empty, Cell.num 3],
   [.empty, .empty, .empty, .empty, .empty, .empty, .empty, .empty, .empty, .empty, Cell.num 4],
   [Cell.str "Tipo Indicador", Cell.str "Tipo Dato", Cell.str "Indicadores de Gestion",
    Cell.str "Ponderacion", Cell.str "Objetivo Aceptable (70%)", Cell.str "Objetivo Muy Bueno (90%)",
    Cell.str "Objetivo Excelente (120%)", Cell.str "Resultado", Cell.str "% Logro",
    Cell.str "Calificación", Cell.str "Ultima Fecha de Actualización", Cell.str "Lider Revisor",
    Cell.str "Comentario"],
   [Cell.str "Comercial", Cell.str "Numerico", Cell.str "Ventas", Cell.num 0,
    Cell.num 5, Cell.num 6, Cell.num 7, Cell.num 8, Cell.num 9,
    Cell.str "Buena", Cell.str "01/01/2025", Cell.str "Revisor", Cell.str "Sin comentario"],
   [.empty, .empty, .empty, .empty, .empty, .empty, .empty, .empty, .empty, .empty, .empty, .empty, .empty]]

/-- Claim C7: an indicator table reaching the weighting checks (header
located, at least one table row, required columns present, objective
columns valid) that contains a zero-weight row makes restructuring fail
with ZeroWeighting, whatever the weighting sum is: the zero-weight check
runs before the sum-tolerance check, so the result is never
WeightingSumOutOfRange. -/
theorem C7_zero_weight_checked_first (g : Grid) (cargo cuil segmento area : Cell)
    (leaderName : String) (fecha sucursal : Option String) (uploadDatetime : String)
    (k1 k2 k3 k4 k5 : Cell) (hr : Nat)
    (hhr : headerRowOf g = some hr)
    (hcount : count_rows_until_empty g ≠ 0)
    (hcols : (validate_required_columns (headerCellsOf g hr)).1 = true)
    (h70 : processObjetivo
      (getCol (tableRowsOf g hr) (headerCellsOf g hr) "Objetivo Aceptable (70%)") ≠ .error ())
    (h90 : processObjetivo
      (getCol (tableRowsOf g hr) (headerCellsOf g hr) "Objetivo Muy Bueno (90%)") ≠ .error ())
    (h120 : processObjetivo
      (getCol (tableRowsOf g hr) (headerCellsOf g hr) "Objetivo Excelente (120%)") ≠ .error ())
    (hzero : validate_ponderacion
      (getCol (tableRowsOf g hr) (headerCellsOf g hr) "Ponderacion") = false) :
    clean_and_restructure g cargo cuil segmento area leaderName fecha sucursal
      uploadDatetime k1 k2 k3 k4 k5 = .error .zeroWeight := by
  unfold clean_and_restructure
  rw [hhr]
  simp only []
  rw [if_neg hcount]
  simp only [hcols, Bool.not_true]
  rw [if_neg (by simp)]
  cases hobj70 : processObjetivo
      (getCol (tableRowsOf g hr) (headerCellsOf g hr) "Objetivo Aceptable (70%)") with
  | error u => cases u; exact absurd hobj70 h70
  | ok obj70 =>
    cases hobj90 : processObjetivo
        (getCol (tableRowsOf g hr) (headerCellsOf g hr) "Objetivo Muy Bueno (90%)") with
    | error u => cases u; exact absurd hobj90 h90
    | ok obj90 =>
      cases hobj120 : processObjetivo
          (getCol (tableRowsOf g hr) (headerCellsOf g hr) "Objetivo Excelente (120%)") with
      | error u => cases u; exact absurd hobj120 h120
      | ok obj120 =>
        rw [hzero]
        rfl

/-- Witness for C7 at a concrete sheet whose single indicator row has
weighting 0 and whose weighting sum (0) also violates the tolerance
band: each hypothesis holds and the result is ZeroWeighting, not
WeightingSumOutOfRange. -/
theorem C7_zero_weight_checked_first_witness :
    headerRowOf exSheetZeroWeight = some 5 ∧
    count_rows_until_empty exSheetZeroWeight ≠ 0 ∧
    validate_ponderacion
      (getCol (tableRowsOf exSheetZeroWeight 5) (headerCellsOf exSheetZeroWeight 5)
        "Ponderacion") = false ∧
    pondSum (getCol (tableRowsOf exSheetZeroWeight 5) (headerCellsOf exSheetZeroWeight 5)
        "Ponderacion") = 0 ∧
    clean_and_restructure exSheetZeroWeight (Cell.str "Analista") (Cell.str "12345678901")
      (Cell.str "Minorista") (Cell.str "Zona Norte") "lider" (some "03-04-2025")
      (some "empresa") "05/05/2025_10:00:00" (Cell.num 10) (Cell.num 1) (Cell.num 2)
      (Cell.num 3) (Cell.num 4) = .error .zeroWeight :=
  ⟨by decide, by decide, by decide, by with_unfolding_all decide,
   C7_zero_weight_checked_first exSheetZeroWeight (Cell.str "Analista")
     (Cell.str "12345678901") (Cell.str "Minorista") (Cell.str "Zona Norte") "lider"
     (some "03-04-2025") (some "empresa") "05/05/2025_10:00:00" (Cell.num 10) (Cell.num 1)
     (Cell.num 2) (Cell.num 3) (Cell.num 4) 5 (by decide) (by decide) (by decide)
     (by with_unfolding_all decide) (by with_unfolding_all decide)
     (by with_unfolding_all decide) (by decide)⟩

/-- Claim C8: over a weighting column of numbers and blanks (no text
cell, whose presence would instead raise), the sum validation passes
exactly when the pandas sum lies in the closed interval [0.99, 1.10];
`.ok false` is the outcome the caller reports as
WeightingSumOutOfRange.  Concretely a sum of 1.0 or 1.05 passes and a
sum of 0.5 or 1.3 fails. -/
theorem C8_weighting_sum_tolerance (pond : List Cell)
    (h : ∀ c ∈ pond, c.isNa = true ∨ c.isNumber = true) :
    (validate_ponderacion_sum pond = .ok true ↔
      (0.99 : ℚ) ≤ pondSum pond ∧ pondSum pond ≤ (1.1 : ℚ)) ∧
    (validate_ponderacion_sum pond = .ok false ↔
      ¬((0.99 : ℚ) ≤ pondSum pond ∧ pondSum pond ≤ (1.1 : ℚ))) ∧
    validate_ponderacion_sum [Cell.num 1] = .ok true ∧
    validate_ponderacion_sum [Cell.num (21/20)] = .ok true ∧
    validate_ponderacion_sum [Cell.num (1/2)] = .ok false ∧
    validate_ponderacion_sum [Cell.num (13/10)] = .ok false := by
  have hstr : (pond.any fun c => match c with
      | Cell.str _ => true
      | Cell.date _ _ _ => true
      | _ => false) = false := by
    rw [List.any_eq_false]
    intro c hc
    rcases h c hc with h1 | h1 <;> cases c <;> simp_all [Cell.isNa, Cell.isNumber]
  refine ⟨?_, ?_, ?_, ?_, ?_, ?_⟩
  · unfold validate_ponderacion_sum
    rw [hstr]
    simp [decide_eq_true_iff]
  · unfold validate_ponderacion_sum
    rw [hstr]
    simp [decide_eq_false_iff_not]
  · with_unfolding_all decide
  · with_unfolding_all decide
  · with_unfolding_all decide
  · with_unfolding_all decide

/-- Witness for C8: a one-row weighting column summing to 1.05 satisfies
the hypothesis and passes. -/
theorem C8_weighting_sum_tolerance_witness :
    (∀ c ∈ [Cell.num (21/20)], c.isNa = true ∨ c.isNumber = true) ∧
    validate_ponderacion_sum [Cell.num (21/20)] = .ok true :=
  have hall : ∀ c ∈ [Cell.num (21/20)], c.isNa = true ∨ c.isNumber = true := by
    intro c hc
    rw [List.mem_singleton] at hc
    subst hc
    exact Or.inr rfl
  ⟨hall,
   ((C8_weighting_sum_tolerance [Cell.num (21/20)] hall).1).mpr
     (by with_unfolding_all decide)⟩

/-- The strict comparison against midnight of the 21st of the processing
month, spelled out by day and time-of-day. -/
theorem dtLt_ajuste_true_iff (now : DT) :
    dtLt ⟨now.year, now.month, 21, 0, 0, 0⟩ now = true ↔
      (21 < now.day ∨ (now.day = 21 ∧
        ¬(now.hour = 0 ∧ now.minute = 0 ∧ now.second = 0))) := by
  unfold dtLt
  dsimp only
  split_ifs with h1 h2 h3 h4 h5
  all_goals simp only [decide_eq_true_iff]
  all_goals omega

/-- Claim C2 (amended): for a declared date in the calendar month
immediately before the processing month, the classifier returns Normal
exactly up to midnight (00:00:00) of the 21st of the processing month
and Adjustment strictly after it.  Hence any processing date after the
21st is Adjustment, any before the 21st is Normal, and on the 21st the
result is Normal only at exactly midnight - not for the whole day, as
the comparison is against the datetime (year, month, 21, 0:00:00). -/
theorem C2_prior_month_cutoff (fecha : String) (fd : PDate) (now : DT)
    (hparse : parseDashDate fecha = some fd)
    (hm : fd.month = prevMonthOf now)
    (hy : fd.year = prevYearOf now) :
    (21 < now.day → determine_tablero_type fecha now = some "Ajuste") ∧
    (now.day < 21 → determine_tablero_type fecha now = some "Normal") ∧
    (now.day = 21 →
      (determine_tablero_type fecha now = some "Normal" ↔
        now.hour = 0 ∧ now.minute = 0 ∧ now.second = 0)) := by
  have hne : ¬(fd.month = now.month ∧ fd.year = now.year) := by
    rintro ⟨h1, h2⟩
    unfold prevMonthOf at hm
    split at hm <;> omega
  have hcore : determine_tablero_type fecha now =
      some (if dtLt ⟨now.year, now.month, 21, 0, 0, 0⟩ now then "Ajuste" else "Normal") := by
    unfold determine_tablero_type
    rw [hparse]
    unfold Option.map determineTableroCore
    rw [if_neg hne, if_pos ⟨hm, hy⟩]
  rw [hcore]
  refine ⟨?_, ?_, ?_⟩
  · intro hday
    rw [if_pos ((dtLt_ajuste_true_iff now).mpr (Or.inl hday))]
  · intro hday
    rw [if_neg ?_]
    intro hlt
    rcases (dtLt_ajuste_true_iff now).mp hlt with h | ⟨h, _⟩ <;> omega
  · intro hday
    constructor
    · intro heq
      by_contra hmid
      rw [if_pos ((dtLt_ajuste_true_iff now).mpr (Or.inr ⟨hday, hmid⟩))] at heq
      exact absurd (Option.some.inj heq) (by decide)
    · intro hmid
      rw [if_neg ?_]
      intro hlt
      rcases (dtLt_ajuste_true_iff now).mp hlt with h | ⟨_, h⟩
      · omega
      · exact h hmid

/-- Witness for C2 (amended): declared March 2025, processed on 22
April 2025 at midnight, classified as an adjustment. -/
theorem C2_prior_month_cutoff_witness :
    parseDashDate "15-03-2025" = some ⟨2025, 3, 15⟩ ∧
    (21 : Nat) < 22 ∧
    determine_tablero_type "15-03-2025" ⟨2025, 4, 22, 0, 0, 0⟩ = some "Ajuste" :=
  ⟨by decide, by decide,
   (C2_prior_month_cutoff "15-03-2025" ⟨2025, 3, 15⟩ ⟨2025, 4, 22, 0, 0, 0⟩
     (by decide) (by decide) (by decide)).1 (by decide)⟩

/-- Counterexample to C2 as stated: a submission declared for March
2025 processed on 21 April 2025 at 12:00 - within "on or before the
21st" - is classified as an adjustment, not Normal: the source compares
the processing datetime strictly against midnight of the 21st, so
time of day on the 21st does matter. -/
theorem C2_counterexample :
    (⟨2025, 4, 21, 12, 0, 0⟩ : DT).day ≤ 21 ∧
    determine_tablero_type "15-03-2025" ⟨2025, 4, 21, 12, 0, 0⟩ = some "Ajuste" ∧
    determine_tablero_type "15-03-2025" ⟨2025, 4, 21, 12, 0, 0⟩ ≠ some "Normal" := by
  refine ⟨by decide, by decide, by decide⟩

/-! ## Store round-trip (C9) -/

/-- Reading back the key just written returns the written blob. -/
theorem getBlob_putBlob_same (st : UState) (k : String) (b : Blob) :
    getBlob (putBlob st k b) k = some b := by
  simp [getBlob, putBlob, List.find?]

/-- Reading any other key is unaffected by a put. -/
theorem getBlob_putBlob_other (st : UState) (k k2 : String) (b : Blob) (h : k2 ≠ k) :
    getBlob (putBlob st k b) k2 = getBlob st k2 := by
  simp only [getBlob, putBlob, List.find?]
  rw [decide_eq_false (by intro he; exact h he.symm)]

/-- A field round-trips through the CSV encoding unless it is the empty
string, which `to_csv` writes exactly like None. -/
theorem decField_encField (x : Option String) (h : x ≠ some "") :
    decField (encField x) = x := by
  cases x with
  | none => rfl
  | some s =>
    show decField s = some s
    unfold decField
    rw [if_neg (fun hs => h (by rw [hs]))]

/-- Decoding inverts encoding entry by entry when no field is the empty
string. -/
theorem decodeIndex_encodeIndex (entries : List IndexEntry)
    (h : ∀ e ∈ entries, e.periodo ≠ some "" ∧ e.cuil ≠ some "" ∧ e.lider ≠ some "") :
    decodeIndex (encodeIndex entries) = entries := by
  have hred : decodeIndex (encodeIndex entries) =
      (entries.map (fun e => [encField e.periodo, encField e.cuil, encField e.lider])).map
        (fun r => (⟨fieldAt r (some 0), fieldAt r (some 1), fieldAt r (some 2)⟩ : IndexEntry)) := rfl
  rw [hred, List.map_map]
  have hid : ∀ e ∈ entries,
      ((fun r => (⟨fieldAt r (some 0), fieldAt r (some 1), fieldAt r (some 2)⟩ : IndexEntry)) ∘
        (fun e => [encField e.periodo, encField e.cuil, encField e.lider])) e = e := by
    intro e he
    obtain ⟨h1, h2, h3⟩ := h e he
    show (⟨decField (encField e.periodo), decField (encField e.cuil),
      decField (encField e.lider)⟩ : IndexEntry) = e
    rw [decField_encField _ h1, decField_encField _ h2, decField_encField _ h3]
  calc entries.map _ = entries.map id := List.map_congr_left hid
  _ = entries := List.map_id entries

/-- A decoded field is never the empty string (an empty CSV field reads
back as null). -/
theorem fieldAt_ne_some_empty (r : List String) (i : Option Nat) :
    fieldAt r i ≠ some "" := by
  cases i with
  | none => simp [fieldAt]
  | some j =>
    show decField (r.getD j "") ≠ some ""
    unfold decField
    split_ifs with h
    · simp
    · intro hc
      exact h (Option.some.inj hc)

/-- No field of a loaded index entry is the empty string. -/
theorem load_no_empty_fields (st : UState) (periodo : String) :
    ∀ e ∈ _load_period_index st periodo,
      e.periodo ≠ some "" ∧ e.cuil ≠ some "" ∧ e.lider ≠ some "" := by
  intro e he
  unfold _load_period_index at he
  cases hb : getBlob st (indexKey periodo) with
  | none => rw [hb] at he; simp at he
  | some b =>
    rw [hb] at he
    cases b with
    | nil => simp [decodeIndex] at he
    | cons hdr rows =>
      unfold decodeIndex at he
      simp only [List.mem_map] at he
      obtain ⟨r, _, hre⟩ := he
      rw [← hre]
      exact ⟨fieldAt_ne_some_empty _ _, fieldAt_ne_some_empty _ _, fieldAt_ne_some_empty _ _⟩

/-- With unique identity keys, `find?` on an identity key returns the
unique matching entry. -/
theorem find?_key_unique {idx : List IndexEntry} {e : IndexEntry} {c : String}
    (hnd : (idx.map (fun e2 => optStr e2.cuil)).Nodup)
    (he : e ∈ idx) (hk : optStr e.cuil = c) :
    idx.find? (fun e2 => optStr e2.cuil = c) = some e := by
  induction idx with
  | nil => cases he
  | cons a l ih =>
    rw [List.map_cons, List.nodup_cons] at hnd
    rcases List.mem_cons.mp he with rfl | hmem
    · rw [List.find?_cons, hk]
      simp
    · have hne : optStr a.cuil ≠ c := by
        intro hEq
        exact hnd.1 (hEq ▸ (List.mem_map.mpr ⟨e, hmem, hk⟩))
      rw [List.find?_cons]
      have : (decide (optStr a.cuil = c)) = false := decide_eq_false hne
      rw [this]
      exact ih hnd.2 hmem

/-- Equation lemmas for `conflictSel`. -/
theorem conflictSel_of_find_none {idx : List IndexEntry} {leaderName c : String}
    (hfind : idx.find? (fun e => optStr e.cuil = c) = none) :
    conflictSel idx leaderName c = none := by
  unfold conflictSel
  rw [hfind]

theorem conflictSel_of_lider_none {idx : List IndexEntry} {leaderName c : String}
    {e : IndexEntry} (hfind : idx.find? (fun e2 => optStr e2.cuil = c) = some e)
    (hlid : e.lider = none) :
    conflictSel idx leaderName c = none := by
  unfold conflictSel
  rw [hfind]
  show (match e.lider with
    | none => none
    | some l => if l ≠ "" ∧ l ≠ leaderName then some (c, l) else none) = none
  rw [hlid]

theorem conflictSel_of_lider_some {idx : List IndexEntry} {leaderName c : String}
    {e : IndexEntry} {l : String}
    (hfind : idx.find? (fun e2 => optStr e2.cuil = c) = some e)
    (hlid : e.lider = some l) :
    conflictSel idx leaderName c =
      (if l ≠ "" ∧ l ≠ leaderName then some (c, l) else none) := by
  unfold conflictSel
  rw [hfind]
  show (match e.lider with
    | none => none
    | some l2 => if l2 ≠ "" ∧ l2 ≠ leaderName then some (c, l2) else none) = _
  rw [hlid]

/-- Membership characterization of the conflict list computed over an
index with unique identity keys and no empty-string owner: exactly the
incoming identities whose recorded owner is a non-null name other than
the submitter, paired with that owner. -/
theorem mem_conflicts_iff (idx : List IndexEntry) (cuils : List String) (leaderName : String)
    (hnodup : (idx.map (fun e2 => optStr e2.cuil)).Nodup)
    (hown : ∀ e ∈ idx, e.lider ≠ some "") (c o : String) :
    ((c, o) ∈ cuils.filterMap (conflictSel idx leaderName)) ↔
    (c ∈ cuils ∧ ∃ e ∈ idx, optStr e.cuil = c ∧ e.lider = some o ∧ o ≠ leaderName) := by
  rw [List.mem_filterMap]
  constructor
  · rintro ⟨a, ha, hfa⟩
    cases hfind : idx.find? (fun e => optStr e.cuil = a) with
    | none => rw [conflictSel_of_find_none hfind] at hfa; cases hfa
    | some e =>
      cases hlid : e.lider with
      | none => rw [conflictSel_of_lider_none hfind hlid] at hfa; cases hfa
      | some l =>
        rw [conflictSel_of_lider_some hfind hlid] at hfa
        by_cases hcond : l ≠ "" ∧ l ≠ leaderName
        · rw [if_pos hcond] at hfa
          have hinj := Option.some.inj hfa
          have hac : a = c := congrArg Prod.fst hinj
          have hlo : l = o := congrArg Prod.snd hinj
          subst hac
          subst hlo
          refine ⟨ha, e, List.mem_of_find?_eq_some hfind, ?_, hlid, hcond.2⟩
          have hp := List.find?_some hfind
          exact of_decide_eq_true hp
        · rw [if_neg hcond] at hfa; cases hfa
  · rintro ⟨hc, e, hmem, hk, hlid, hne⟩
    refine ⟨c, hc, ?_⟩
    rw [conflictSel_of_lider_some (find?_key_unique hnodup hmem hk) hlid]
    rw [if_pos ⟨fun h0 => hown e hmem (by rw [hlid, h0]), hne⟩]

/-- Saving an entry set with no empty-string field and loading the same
period returns it unchanged (helper shared by the store round-trip and
merge-append arguments). -/
theorem load_after_save (st : UState) (periodo : String) (entries : List IndexEntry)
    (h : ∀ e ∈ entries, e.periodo ≠ some "" ∧ e.cuil ≠ some "" ∧ e.lider ≠ some "") :
    _load_period_index (_save_period_index st entries periodo) periodo = entries := by
  unfold _load_period_index _save_period_index
  rw [getBlob_putBlob_same]
  exact decodeIndex_encodeIndex entries h

/-- `str()` of a field that is not the empty string is never the empty
string (NaN prints "nan"). -/
theorem optStr_ne_empty {x : Option String} (h : x ≠ some "") : optStr x ≠ "" := by
  cases x with
  | none => decide
  | some s =>
    show s ≠ ""
    intro hs
    exact h (by rw [hs])

/-- Equation lemmas for `addSel`. -/
theorem addSel_of_any_true {df : List IndexEntry} {periodoStr leaderName c : String}
    (h : df.any (fun e => optStr e.cuil = c) = true) :
    addSel df periodoStr leaderName c = none := by
  unfold addSel
  rw [if_pos h]

theorem addSel_of_any_false {df : List IndexEntry} {periodoStr leaderName c : String}
    (h : df.any (fun e => optStr e.cuil = c) = false) :
    addSel df periodoStr leaderName c =
      some ⟨some periodoStr, some c, some leaderName⟩ := by
  unfold addSel
  rw [if_neg (by rw [h]; decide)]

/-- What one merge-append leaves in the store: the loaded table with its
CUIL column stringified, followed by one new row per incoming identity
that matched no existing row. -/
theorem load_after_update (st : UState) (periodo : String) (cuils : List String)
    (leaderName : String)
    (hp : periodo ≠ "") (hl : leaderName ≠ "") (hc : ∀ c ∈ cuils, c ≠ "") :
    _load_period_index (_update_period_index_with_upload st periodo cuils leaderName)
        periodo =
      ((_load_period_index st periodo).map
          (fun e => { e with cuil := some (optStr e.cuil) })) ++
        cuils.filterMap (addSel ((_load_period_index st periodo).map
          (fun e => { e with cuil := some (optStr e.cuil) })) periodo leaderName) := by
  unfold _update_period_index_with_upload
  apply load_after_save
  intro e he
  rcases List.mem_append.mp he with hmap | hadd
  · obtain ⟨e0, he0, rfl⟩ := List.mem_map.mp hmap
    obtain ⟨h1, h2, h3⟩ := load_no_empty_fields st periodo e0 he0
    refine ⟨h1, ?_, h3⟩
    intro hcu
    exact optStr_ne_empty h2 (Option.some.inj hcu)
  · obtain ⟨c, hcmem, hfc⟩ := List.mem_filterMap.mp hadd
    by_cases hcond : ((_load_period_index st periodo).map
        (fun e => { e with cuil := some (optStr e.cuil) })).any
          (fun e => optStr e.cuil = c) = true
    · rw [addSel_of_any_true hcond] at hfc; cases hfc
    · rw [addSel_of_any_false (Bool.eq_false_iff.mpr hcond)] at hfc
      have he2 := Option.some.inj hfc
      rw [← he2]
      refine ⟨?_, ?_, ?_⟩
      · intro hx; exact hp (Option.some.inj hx)
      · intro hx; exact hc c hcmem (Option.some.inj hx)
      · intro hx; exact hl (Option.some.inj hx)

/-- Identity keys of the appended rows: the incoming identities that
matched no existing row. -/
theorem toAdd_keys (idx : List IndexEntry) (periodo leaderName : String)
    (cuils : List String) :
    (cuils.filterMap (addSel idx periodo leaderName)).map (fun e => optStr e.cuil)
      = cuils.filter (fun c => !idx.any (fun e => optStr e.cuil = c)) := by
  induction cuils with
  | nil => rfl
  | cons a l ih =>
    by_cases hcond : idx.any (fun e => optStr e.cuil = a) = true
    · rw [List.filterMap_cons_none (addSel_of_any_true hcond), ih,
        List.filter_cons_of_neg (by rw [hcond]; decide)]
    · have hcond2 := Bool.eq_false_iff.mpr hcond
      rw [List.filterMap_cons_some (addSel_of_any_false hcond2), List.map_cons, ih,
        List.filter_cons_of_pos (by rw [hcond2]; decide)]
      rfl

/-- Claim C4: a merge-append of pairwise-distinct, non-empty incoming
identities never deletes or rewrites an existing entry - every entry of
the period's index before the merge is still present, unchanged (same
owner), afterwards - and the per-period uniqueness of identity keys is
preserved.  Entries are assumed to carry identity codes (a null
identity cell would be re-encoded as the text "nan" by the
stringification step of the source). -/
theorem C4_merge_append_preserves (st : UState) (periodo leaderName : String)
    (cuils : List String)
    (hp : periodo ≠ "") (hl : leaderName ≠ "") (hc : ∀ c ∈ cuils, c ≠ "")
    (hnd : cuils.Nodup)
    (hkeys : ((_load_period_index st periodo).map (fun e => optStr e.cuil)).Nodup)
    (hcuil : ∀ e ∈ _load_period_index st periodo, e.cuil ≠ none) :
    (∀ e ∈ _load_period_index st periodo,
      e ∈ _load_period_index
        (_update_period_index_with_upload st periodo cuils leaderName) periodo) ∧
    ((_load_period_index
        (_update_period_index_with_upload st periodo cuils leaderName) periodo).map
      (fun e => optStr e.cuil)).Nodup := by
  have hload2 := load_after_update st periodo cuils leaderName hp hl hc
  have hmapid : (_load_period_index st periodo).map
      (fun e => { e with cuil := some (optStr e.cuil) }) =
      _load_period_index st periodo := by
    have hid : ∀ e ∈ _load_period_index st periodo,
        (fun e => ({ e with cuil := some (optStr e.cuil) } : IndexEntry)) e = e := by
      intro e he
      obtain ⟨p, c, l⟩ := e
      cases c with
      | none => exact absurd rfl (hcuil _ he)
      | some s => rfl
    calc _ = (_load_period_index st periodo).map id := List.map_congr_left hid
    _ = _ := List.map_id _
  rw [hmapid] at hload2
  constructor
  · intro e he
    rw [hload2]
    exact List.mem_append_left _ he
  · rw [hload2, List.map_append, toAdd_keys]
    refine List.Nodup.append hkeys (List.Nodup.filter _ hnd) ?_
    intro a ha1 ha2
    obtain ⟨_, hcond⟩ := List.mem_filter.mp ha2
    obtain ⟨e, hemem, hkey⟩ := List.mem_map.mp ha1
    rw [Bool.not_eq_true', List.any_eq_false] at hcond
    exact (hcond e hemem) (decide_eq_true hkey)

/-- Witness for C4: merging a fresh identity for submitter "B" into a
period index that already holds an entry owned by "A" keeps the old
entry unchanged and keeps the identity keys unique. -/
theorem C4_merge_append_preserves_witness :
    (⟨some "01-04-2025", some "12345678901", some "A"⟩ : IndexEntry) ∈
      _load_period_index
        (_update_period_index_with_upload
          (_save_period_index ⟨[]⟩ [⟨some "01-04-2025", some "12345678901", some "A"⟩]
            "01-04-2025")
          "01-04-2025" ["22345678902"] "B") "01-04-2025" ∧
    ((_load_period_index
        (_update_period_index_with_upload
          (_save_period_index ⟨[]⟩ [⟨some "01-04-2025", some "12345678901", some "A"⟩]
            "01-04-2025")
          "01-04-2025" ["22345678902"] "B") "01-04-2025").map
      (fun e => optStr e.cuil)).Nodup := by
  have h := C4_merge_append_preserves
    (_save_period_index ⟨[]⟩ [⟨some "01-04-2025", some "12345678901", some "A"⟩] "01-04-2025")
    "01-04-2025" "B" ["22345678902"] (by decide) (by decide) (by decide) (by decide)
    (by decide) (by decide)
  exact ⟨h.1 _ (by decide), h.2⟩

/-- Claim C10: an index entry with a null owner never produces a
conflict for its identity, and a merge-append touching that identity
leaves the entry exactly as it is - in particular its owner stays null
instead of being reassigned to the uploading submitter, and no second
row for that identity is created. -/
theorem C10_null_owner (st : UState) (cuils : List String) (fecha leaderName : String)
    (e : IndexEntry)
    (hnodup : ((_load_period_index st (normalize_fecha_to_first_day fecha)).map
        (fun e2 => optStr e2.cuil)).Nodup)
    (hown : ∀ e2 ∈ _load_period_index st (normalize_fecha_to_first_day fecha),
        e2.lider ≠ some "")
    (hmem : e ∈ _load_period_index st (normalize_fecha_to_first_day fecha))
    (hnull : e.lider = none)
    (hecuil : e.cuil ≠ none)
    (hp : normalize_fecha_to_first_day fecha ≠ "") (hl : leaderName ≠ "")
    (hc : ∀ c ∈ cuils, c ≠ "") :
    (∀ o, (optStr e.cuil, o) ∉ (check_for_duplicates st cuils fecha leaderName).2) ∧
    (e ∈ _load_period_index
        (_update_period_index_with_upload st (normalize_fecha_to_first_day fecha) cuils
          leaderName) (normalize_fecha_to_first_day fecha)) ∧
    (∀ e2 ∈ _load_period_index
        (_update_period_index_with_upload st (normalize_fecha_to_first_day fecha) cuils
          leaderName) (normalize_fecha_to_first_day fecha),
      optStr e2.cuil = optStr e.cuil → e2 = e) := by
  have hstrf : ({ e with cuil := some (optStr e.cuil) } : IndexEntry) = e := by
    obtain ⟨p, c, l⟩ := e
    cases c with
    | none => exact absurd rfl hecuil
    | some s => rfl
  have hload2 := load_after_update st (normalize_fecha_to_first_day fecha) cuils
    leaderName hp hl hc
  refine ⟨?_, ?_, ?_⟩
  · intro o hconf
    have hdef : (check_for_duplicates st cuils fecha leaderName).2 =
        (if _load_period_index st (normalize_fecha_to_first_day fecha) = []
         then ([] : List (String × String))
         else cuils.filterMap (conflictSel
            (_load_period_index st (normalize_fecha_to_first_day fecha)) leaderName)) := by
      by_cases hidx : _load_period_index st (normalize_fecha_to_first_day fecha) = []
      · rw [if_pos hidx]
        show (if _load_period_index st (normalize_fecha_to_first_day fecha) = []
          then ((false : Bool), ([] : List (String × String)))
          else _).2 = []
        rw [if_pos hidx]
      · rw [if_neg hidx]
        show (if _load_period_index st (normalize_fecha_to_first_day fecha) = []
          then ((false : Bool), ([] : List (String × String)))
          else _).2 = _
        rw [if_neg hidx]
    rw [hdef] at hconf
    by_cases hidx : _load_period_index st (normalize_fecha_to_first_day fecha) = []
    · rw [if_pos hidx] at hconf
      cases hconf
    · rw [if_neg hidx] at hconf
      obtain ⟨_, e2, he2mem, hk2, hlid2, _⟩ :=
        ((mem_conflicts_iff _ cuils leaderName hnodup hown _ o).mp hconf)
      have he2e : e2 = e :=
        List.inj_on_of_nodup_map hnodup he2mem hmem hk2
      rw [he2e, hnull] at hlid2
      cases hlid2
  · rw [hload2]
    exact List.mem_append_left _ (List.mem_map.mpr ⟨e, hmem, hstrf⟩)
  · intro e2 he2 hk2
    rw [hload2] at he2
    rcases List.mem_append.mp he2 with hmap | hadd
    · obtain ⟨e0, he0, he0eq⟩ := List.mem_map.mp hmap
      have hkey0 : optStr e0.cuil = optStr e.cuil := by
        rw [← hk2, ← he0eq]
        rfl
      have he0e : e0 = e := List.inj_on_of_nodup_map hnodup he0 hmem hkey0
      rw [← he0eq, he0e]
      exact hstrf
    · obtain ⟨c, hcmem, hfc⟩ := List.mem_filterMap.mp hadd
      by_cases hcond : ((_load_period_index st (normalize_fecha_to_first_day fecha)).map
          (fun e2 => { e2 with cuil := some (optStr e2.cuil) })).any
            (fun e2 => optStr e2.cuil = c) = true
      · rw [addSel_of_any_true hcond] at hfc
        cases hfc
      · exfalso
        rw [addSel_of_any_false (Bool.eq_false_iff.mpr hcond)] at hfc
        have hkc : c = optStr e.cuil := by
          rw [← hk2, ← Option.some.inj hfc]
          rfl
        apply hcond
        rw [List.any_eq_true]
        refine ⟨{ e with cuil := some (optStr e.cuil) },
          List.mem_map.mpr ⟨e, hmem, rfl⟩, ?_⟩
        rw [hkc]
        exact decide_eq_true rfl

/-- Witness for C10: a period index holding identity 12345678901 with a
null owner.  Submitter "B" resubmitting that identity sees no conflict,
the null-owner entry survives the merge-append unchanged, and no row
assigning "B" as its owner is created. -/
theorem C10_null_owner_witness :
    ("12345678901", "A") ∉ (check_for_duplicates
      (_save_period_index ⟨[]⟩ [⟨some "01-04-2025", some "12345678901", none⟩] "01-04-2025")
      ["12345678901"] "01-04-2025" "B").2 ∧
    (⟨some "01-04-2025", some "12345678901", none⟩ : IndexEntry) ∈
      _load_period_index
        (_update_period_index_with_upload
          (_save_period_index ⟨[]⟩ [⟨some "01-04-2025", some "12345678901", none⟩]
            "01-04-2025") "01-04-2025" ["12345678901"] "B") "01-04-2025" ∧
    (⟨some "01-04-2025", some "12345678901", some "B"⟩ : IndexEntry) ∉
      _load_period_index
        (_update_period_index_with_upload
          (_save_period_index ⟨[]⟩ [⟨some "01-04-2025", some "12345678901", none⟩]
            "01-04-2025") "01-04-2025" ["12345678901"] "B") "01-04-2025" := by
  have h := C10_null_owner
    (_save_period_index ⟨[]⟩ [⟨some "01-04-2025", some "12345678901", none⟩] "01-04-2025")
    ["12345678901"] "01-04-2025" "B" ⟨some "01-04-2025", some "12345678901", none⟩
    (by decide) (by decide) (by decide) (by decide) (by decide) (by decide) (by decide)
    (by decide)
  refine ⟨h.1 "A", h.2.1, ?_⟩
  intro hin
  have heq := h.2.2 _ hin (by decide)
  exact absurd heq (by decide)

/-! ## Filename parser characterization (C6) -/

/-- The sheet loop returns the empty failure as soon as any sheet of
the remaining workbook evaluates to an aborting failure, whatever has
been accumulated. -/
theorem processSheetsGo_fail (leaderName : String) (fecha sucursal : Option String)
    (uploadDatetime : String) (nowDate : PDate) (wb : List (String × Grid))
    (dfs : List (List Record))
    (h : ∃ s ∈ wb, perSheet leaderName fecha sucursal uploadDatetime nowDate s.2 = .fail) :
    processSheetsGo leaderName fecha sucursal uploadDatetime nowDate wb dfs = ([], false) := by
  induction wb generalizing dfs with
  | nil =>
    obtain ⟨s, hs, _⟩ := h
    cases hs
  | cons hd rest ih =>
    obtain ⟨nm, g⟩ := hd
    obtain ⟨s, hs, hfail⟩ := h
    show (match perSheet leaderName fecha sucursal uploadDatetime nowDate g with
      | .fail => (([] : List Record), false)
      | .skip => processSheetsGo leaderName fecha sucursal uploadDatetime nowDate rest dfs
      | .ok recs =>
        processSheetsGo leaderName fecha sucursal uploadDatetime nowDate rest
          (dfs ++ [recs])) = ([], false)
    rcases List.mem_cons.mp hs with rfl | hmem
    · rw [hfail]
    · cases hout : perSheet leaderName fecha sucursal uploadDatetime nowDate g with
      | fail => rfl
      | skip => exact ih dfs ⟨s, hmem, hfail⟩
      | ok recs => exact ih (dfs ++ [recs]) ⟨s, hmem, hfail⟩

/-- Claim C1 (amended): a failure at the grid-structure, form-cell,
restructuring or update-date gate of any sheet aborts the whole
workbook with no records; but a sheet whose extracted header fields are
not all truthy is silently dropped (the loop moves to the next sheet
without failing), so header-field extraction is not an aborting gate. -/
theorem C1_workbook_abort (filename uploadDatetime : String) (nowDate : PDate)
    (wb : List (String × Grid)) :
    ((∃ s ∈ wb, perSheet (extract_leader_name filename)
        (extract_date_and_sucursal filename).1 (extract_date_and_sucursal filename).2
        uploadDatetime nowDate s.2 = .fail) →
      process_sheets_until_empty wb filename uploadDatetime nowDate = ([], false)) ∧
    (∀ nm g rest, perSheet (extract_leader_name filename)
        (extract_date_and_sucursal filename).1 (extract_date_and_sucursal filename).2
        uploadDatetime nowDate g = .skip →
      process_sheets_until_empty ((nm, g) :: rest) filename uploadDatetime nowDate =
        process_sheets_until_empty rest filename uploadDatetime nowDate) := by
  constructor
  · intro h
    exact processSheetsGo_fail (extract_leader_name filename)
      (extract_date_and_sucursal filename).1 (extract_date_and_sucursal filename).2
      uploadDatetime nowDate wb [] h
  · intro nm g rest hskip
    show (match perSheet (extract_leader_name filename)
        (extract_date_and_sucursal filename).1 (extract_date_and_sucursal filename).2
        uploadDatetime nowDate g with
      | .fail => (([] : List Record), false)
      | .skip => processSheetsGo (extract_leader_name filename)
          (extract_date_and_sucursal filename).1 (extract_date_and_sucursal filename).2
          uploadDatetime nowDate rest []
      | .ok recs => processSheetsGo (extract_leader_name filename)
          (extract_date_and_sucursal filename).1 (extract_date_and_sucursal filename).2
          uploadDatetime nowDate rest ([] ++ [recs])) = _
    rw [hskip]
    rfl

/-- Witness for C1 (amended): a workbook whose only sheet has an empty
grid fails the structure gate and the whole submission is rejected with
no records. -/
theorem C1_workbook_abort_witness :
    perSheet (extract_leader_name "03-04-2025+empresa+lider.xlsx")
      (extract_date_and_sucursal "03-04-2025+empresa+lider.xlsx").1
      (extract_date_and_sucursal "03-04-2025+empresa+lider.xlsx").2
      "05/05/2025_10:00:00" ⟨2025, 5, 5⟩ [] = .fail ∧
    process_sheets_until_empty [("Hoja1", [])] "03-04-2025+empresa+lider.xlsx"
      "05/05/2025_10:00:00" ⟨2025, 5, 5⟩ = ([], false) :=
  ⟨by decide,
   (C1_workbook_abort "03-04-2025+empresa+lider.xlsx" "05/05/2025_10:00:00" ⟨2025, 5, 5⟩
     [("Hoja1", [])]).1 ⟨("Hoja1", []), List.mem_singleton.mpr rfl, by decide⟩⟩

/-- Counterexample to C1 as stated: in the workbook
`[exSheetSkipped, exSheetValid]` the first sheet passes the grid and
form-cell gates (its B1 cell holds the number 0, which is not NaN) but
its extracted header fields are not usable - the cargo field is the
falsy 0 - so per the claim the header-field-extraction gate fails and
the whole workbook must be rejected with no records.  The code instead
skips the sheet silently and accepts the workbook, producing the
second sheet's record. -/
theorem C1_counterexample :
    verify_sheet_structure exSheetSkipped = true ∧
    validate_form_cells exSheetSkipped = true ∧
    (extract_data_from_form exSheetSkipped).isSome = true ∧
    (extract_data_from_form exSheetSkipped).map (fun t => t.1) = some (Cell.num 0) ∧
    Cell.truthy (Cell.num 0) = false ∧
    perSheet (extract_leader_name "03-04-2025+empresa+lider.xlsx")
      (extract_date_and_sucursal "03-04-2025+empresa+lider.xlsx").1
      (extract_date_and_sucursal "03-04-2025+empresa+lider.xlsx").2
      "05/05/2025_10:00:00" ⟨2025, 5, 5⟩ exSheetSkipped = .skip ∧
    (process_sheets_until_empty [("Hoja1", exSheetSkipped), ("Hoja2", exSheetValid)]
      "03-04-2025+empresa+lider.xlsx" "05/05/2025_10:00:00" ⟨2025, 5, 5⟩).2 = true ∧
    (process_sheets_until_empty [("Hoja1", exSheetSkipped), ("Hoja2", exSheetValid)]
      "03-04-2025+empresa+lider.xlsx" "05/05/2025_10:00:00" ⟨2025, 5, 5⟩).1.length = 1 := by
  refine ⟨by decide, by with_unfolding_all decide, by decide, by with_unfolding_all decide,
    by with_unfolding_all decide, by with_unfolding_all decide,
    by with_unfolding_all decide, by with_unfolding_all decide⟩

/-! ## Commit ordering of the upload driver (C3) -/

/-- Logging touches only the "Errores.txt" key. -/
theorem getBlob_logError (st : UState) (now : DT) (msg filename k : String)
    (h : k ≠ logKey) :
    getBlob (logError st now msg filename) k = getBlob st k := by
  unfold logError
  cases hb : getBlob st logKey with
  | none => exact getBlob_putBlob_other st logKey k _ h
  | some b => exact getBlob_putBlob_other st logKey k _ h

/-- Claim C3: the normalized CSV is written only when the filename,
structure, nonemptiness and duplicate-conflict gates have all passed
(and the S3 upload succeeded); the period index is updated only in the
same run in which the data write succeeded; and on any of those gate
failures or a conflict, nothing but the error log changes - in
particular the period index is left untouched. -/
theorem C3_commit_ordering (filename : String) (wb : List (String × Grid)) (now : DT)
    (uploadOk guardar cancelar : Bool) (st : UState) :
    (Ev.wroteData ∈ (process_and_upload_excel filename wb now uploadOk guardar cancelar st).2 →
      validate_filename filename = true ∧
      (process_sheets_until_empty wb filename (fmtUploadDT now) now.dateOf).2 = true ∧
      (process_sheets_until_empty wb filename (fmtUploadDT now) now.dateOf).1 ≠ [] ∧
      (check_for_duplicates st
        (uniqueCuilsOf (process_sheets_until_empty wb filename (fmtUploadDT now) now.dateOf).1)
        (normalize_fecha_to_first_day (fechaArchivoOf filename))
        (leaderOfRecords
          (process_sheets_until_empty wb filename (fmtUploadDT now) now.dateOf).1)).1 = false ∧
      uploadOk = true) ∧
    (Ev.wroteIndex ∈ (process_and_upload_excel filename wb now uploadOk guardar cancelar st).2 →
      Ev.wroteData ∈ (process_and_upload_excel filename wb now uploadOk guardar cancelar st).2 ∧
      uploadOk = true) ∧
    ((validate_filename filename = false ∨
      (process_sheets_until_empty wb filename (fmtUploadDT now) now.dateOf).2 = false ∨
      (process_sheets_until_empty wb filename (fmtUploadDT now) now.dateOf).1 = [] ∨
      (check_for_duplicates st
        (uniqueCuilsOf (process_sheets_until_empty wb filename (fmtUploadDT now) now.dateOf).1)
        (normalize_fecha_to_first_day (fechaArchivoOf filename))
        (leaderOfRecords
          (process_sheets_until_empty wb filename (fmtUploadDT now) now.dateOf).1)).1 = true) →
      ∀ k, k ≠ logKey →
        getBlob (process_and_upload_excel filename wb now uploadOk guardar cancelar st).1 k =
          getBlob st k) := by
  by_cases h1 : validate_filename filename = true
  case neg =>
    have h1b : validate_filename filename = false := Bool.eq_false_iff.mpr h1
    have hres : process_and_upload_excel filename wb now uploadOk guardar cancelar st =
        (logError st now "formato" filename, [Ev.logged]) := by
      simp [process_and_upload_excel, h1b]
    rw [hres]
    refine ⟨by simp, by simp, ?_⟩
    intro _ k hk
    exact getBlob_logError st now _ filename k hk
  case pos =>
  by_cases h2 : (process_sheets_until_empty wb filename (fmtUploadDT now) now.dateOf).2 = true
  case neg =>
    have h2b := Bool.eq_false_iff.mpr h2
    have hres : process_and_upload_excel filename wb now uploadOk guardar cancelar st =
        (logError st now "estructura" filename, [Ev.logged]) := by
      simp [process_and_upload_excel, h1, h2b]
    rw [hres]
    refine ⟨by simp, by simp, ?_⟩
    intro _ k hk
    exact getBlob_logError st now _ filename k hk
  case pos =>
  by_cases h3 : (process_sheets_until_empty wb filename (fmtUploadDT now) now.dateOf).1 = []
  case pos =>
    have h3b : (process_sheets_until_empty wb filename (fmtUploadDT now) now.dateOf).1.isEmpty
        = true := by simp [h3]
    have hres : process_and_upload_excel filename wb now uploadOk guardar cancelar st =
        (logError st now "sin datos" filename, [Ev.logged]) := by
      simp [process_and_upload_excel, h1, h2, h3b]
    rw [hres]
    refine ⟨by simp, by simp, ?_⟩
    intro _ k hk
    exact getBlob_logError st now _ filename k hk
  case neg =>
  by_cases h4 : (check_for_duplicates st
      (uniqueCuilsOf (process_sheets_until_empty wb filename (fmtUploadDT now) now.dateOf).1)
      (normalize_fecha_to_first_day (fechaArchivoOf filename))
      (leaderOfRecords
        (process_sheets_until_empty wb filename (fmtUploadDT now) now.dateOf).1)).1 = true
  case pos =>
    have h3b : (process_sheets_until_empty wb filename (fmtUploadDT now) now.dateOf).1.isEmpty
        = false := by simpa using h3
    have hres : process_and_upload_excel filename wb now uploadOk guardar cancelar st =
        (logError st now "duplicados" filename, [Ev.logged]) := by
      simp [process_and_upload_excel, h1, h2, h3b, h4]
    rw [hres]
    refine ⟨by simp, by simp, ?_⟩
    intro _ k hk
    exact getBlob_logError st now _ filename k hk
  case neg =>
  have h4b := Bool.eq_false_iff.mpr h4
  have h3b : (process_sheets_until_empty wb filename (fmtUploadDT now) now.dateOf).1.isEmpty
      = false := by simpa using h3
  have hpre : ¬(validate_filename filename = false ∨
      (process_sheets_until_empty wb filename (fmtUploadDT now) now.dateOf).2 = false ∨
      (process_sheets_until_empty wb filename (fmtUploadDT now) now.dateOf).1 = [] ∨
      (check_for_duplicates st
        (uniqueCuilsOf (process_sheets_until_empty wb filename (fmtUploadDT now) now.dateOf).1)
        (normalize_fecha_to_first_day (fechaArchivoOf filename))
        (leaderOfRecords
          (process_sheets_until_empty wb filename (fmtUploadDT now) now.dateOf).1)).1 = true) := by
    rintro (h | h | h | h)
    · rw [h1] at h; cases h
    · rw [h2] at h; cases h
    · exact h3 h
    · exact h4 h
  cases hdet : determine_tablero_type (fechaArchivoOf filename) now with
  | none =>
    have hres : process_and_upload_excel filename wb now uploadOk guardar cancelar st =
        (logError st now "excepcion" filename, [Ev.logged]) := by
      simp [process_and_upload_excel, h1, h2, h3b, h4b, hdet]
    rw [hres]
    exact ⟨by simp, by simp, fun hpre2 => absurd hpre2 hpre⟩
  | some t =>
    by_cases hA1 : ((decide (t = "Ajuste")) && cancelar) = true
    case pos =>
      have hres : process_and_upload_excel filename wb now uploadOk guardar cancelar st =
          (st, []) := by
        simp [process_and_upload_excel, h1, h2, h3b, h4b, hdet, hA1]
      rw [hres]
      exact ⟨by simp, by simp, fun hpre2 => absurd hpre2 hpre⟩
    case neg =>
    have hA1b := Bool.eq_false_iff.mpr hA1
    by_cases hA2 : ((decide (t = "Ajuste")) && !guardar) = true
    case pos =>
      have hres : process_and_upload_excel filename wb now uploadOk guardar cancelar st =
          (st, []) := by
        simp [process_and_upload_excel, h1, h2, h3b, h4b, hdet, hA1b, hA2]
      rw [hres]
      exact ⟨by simp, by simp, fun hpre2 => absurd hpre2 hpre⟩
    case neg =>
    have hA2b := Bool.eq_false_iff.mpr hA2
    by_cases h5 : uploadOk = true
    case neg =>
      have h5b := Bool.eq_false_iff.mpr h5
      have hres : process_and_upload_excel filename wb now uploadOk guardar cancelar st =
          (st, []) := by
        simp [process_and_upload_excel, h1, h2, h3b, h4b, hdet, hA1b, hA2b, h5b]
      rw [hres]
      exact ⟨by simp, by simp, fun hpre2 => absurd hpre2 hpre⟩
    case pos =>
      have hres : (process_and_upload_excel filename wb now uploadOk guardar cancelar st).2 =
          [Ev.wroteData, Ev.wroteIndex] := by
        simp [process_and_upload_excel, h1, h2, h3b, h4b, hdet, hA1b, hA2b, h5]
      refine ⟨fun _ => ⟨h1, h2, h3, h4b, h5⟩, fun _ => ⟨?_, h5⟩,
        fun hpre2 => absurd hpre2 hpre⟩
      rw [hres]
      simp

/-- Witness for C3: identity 12345678901 already owned by "A" in period
01-04-2025; an otherwise fully valid upload by "B" hits the conflict
gate and the period's index blob is left exactly as it was. -/
theorem C3_commit_ordering_witness :
    (check_for_duplicates
      (_save_period_index ⟨[]⟩ [⟨some "01-04-2025", some "12345678901", some "A"⟩]
        "01-04-2025")
      (uniqueCuilsOf (process_sheets_until_empty [("Hoja1", exSheetValid)]
        "03-04-2025+empresa+B.xlsx" (fmtUploadDT ⟨2025, 5, 5, 10, 0, 0⟩)
        (DT.dateOf ⟨2025, 5, 5, 10, 0, 0⟩)).1)
      (normalize_fecha_to_first_day (fechaArchivoOf "03-04-2025+empresa+B.xlsx"))
      (leaderOfRecords (process_sheets_until_empty [("Hoja1", exSheetValid)]
        "03-04-2025+empresa+B.xlsx" (fmtUploadDT ⟨2025, 5, 5, 10, 0, 0⟩)
        (DT.dateOf ⟨2025, 5, 5, 10, 0, 0⟩)).1)).1 = true ∧
    getBlob (process_and_upload_excel "03-04-2025+empresa+B.xlsx" [("Hoja1", exSheetValid)]
      ⟨2025, 5, 5, 10, 0, 0⟩ true true false
      (_save_period_index ⟨[]⟩ [⟨some "01-04-2025", some "12345678901", some "A"⟩]
        "01-04-2025")).1 "01-04-2025/indice.csv" =
    getBlob (_save_period_index ⟨[]⟩ [⟨some "01-04-2025", some "12345678901", some "A"⟩]
      "01-04-2025") "01-04-2025/indice.csv" :=
  have hdup : (check_for_duplicates
      (_save_period_index ⟨[]⟩ [⟨some "01-04-2025", some "12345678901", some "A"⟩]
        "01-04-2025")
      (uniqueCuilsOf (process_sheets_until_empty [("Hoja1", exSheetValid)]
        "03-04-2025+empresa+B.xlsx" (fmtUploadDT ⟨2025, 5, 5, 10, 0, 0⟩)
        (DT.dateOf ⟨2025, 5, 5, 10, 0, 0⟩)).1)
      (normalize_fecha_to_first_day (fechaArchivoOf "03-04-2025+empresa+B.xlsx"))
      (leaderOfRecords (process_sheets_until_empty [("Hoja1", exSheetValid)]
        "03-04-2025+empresa+B.xlsx" (fmtUploadDT ⟨2025, 5, 5, 10, 0, 0⟩)
        (DT.dateOf ⟨2025, 5, 5, 10, 0, 0⟩)).1)).1 = true := by
    with_unfolding_all decide
  ⟨hdup,
   (C3_commit_ordering "03-04-2025+empresa+B.xlsx" [("Hoja1", exSheetValid)]
     ⟨2025, 5, 5, 10, 0, 0⟩ true true false
     (_save_period_index ⟨[]⟩ [⟨some "01-04-2025", some "12345678901", some "A"⟩]
       "01-04-2025")).2.2
     (Or.inr (Or.inr (Or.inr hdup))) "01-04-2025/indice.csv" (by decide)⟩
